import Mathlib

set_option maxHeartbeats 1000000

/-!
Formal model of the two Anvil command-line scripts of this repository:
`create_anvil_template.py` (the template Creator) and
`fill_anvil_template.py` (the template Filler).

JSON values are modelled by the inductive `Json`; Python dict semantics
(insertion order, first-key lookup, truthiness) are modelled explicitly.
The multipart/form-data encoder of `graphql_upload` is modelled at the
byte level (bytes are `Nat` below 256), together with a standards-compliant
multipart parser used to state the round-trip property.
-/

/-- JSON values as handled by Python's `json` module; numbers are modelled as
integers (the scripts only ever build integral numbers). Objects keep
insertion order, as Python dicts do. -/
inductive Json where
  | null
  | bool (b : Bool)
  | num (n : Int)
  | str (s : String)
  | arr (xs : List Json)
  | obj (kvs : List (String × Json))

/-- First-match association lookup: the model of indexing a parsed JSON
object (parsed dicts have unique keys, so first match is the entry). -/
def lookupKey : List (String × Json) → String → Option Json
  | [], _ => none
  | (k, v) :: rest, key => if k = key then some v else lookupKey rest key

/-- Python truthiness of a JSON value (`bool(x)`). -/
def Json.truthy : Json → Bool
  | .null => false
  | .bool b => b
  | .num n => n != 0
  | .str s => !s.isEmpty
  | .arr xs => !xs.isEmpty
  | .obj kvs => !kvs.isEmpty

/-- `x.get(key)` on a JSON dict; `none` when the key is missing or the
value is not a dict. -/
def Json.get : Json → String → Option Json
  | .obj kvs, k => lookupKey kvs k
  | _, _ => none

/-- Python `a or default` where `a` is the result of a `.get`. -/
def pyOr (a : Option Json) (dflt : Json) : Json :=
  match a with
  | some v => if v.truthy then v else dflt
  | none => dflt

/-- Python `a or default` for an optional string. -/
def pyOrStr (a : Option String) (dflt : String) : String :=
  match a with
  | some s => if s.isEmpty then dflt else s
  | none => dflt

/-- Truthiness of a Python `str | None` value. -/
def strTruthy : Option String → Bool
  | none => false
  | some s => !s.isEmpty

/-- The left-brace character, kept out of string literals. -/
def lbrace : Char := Char.ofNat 123

/-- The right-brace character, kept out of string literals. -/
def rbrace : Char := Char.ofNat 125

/-- Lower-case hexadecimal digit, for `\uXXXX` escapes. -/
def hexDigit (n : Nat) : Char :=
  if n < 10 then Char.ofNat (48 + n) else Char.ofNat (87 + n)

/-- Four lower-case hex digits of `n % 65536`. -/
def hex4 (n : Nat) : List Char :=
  [hexDigit (n / 4096 % 16), hexDigit (n / 256 % 16), hexDigit (n / 16 % 16), hexDigit (n % 16)]

/-- One character of a JSON string as escaped by Python `json.dumps`;
`ensureAscii` mirrors the `ensure_ascii` keyword (characters outside
`0x20..0x7e` get `\uXXXX` escapes, with surrogate pairs above `0xffff`). -/
def escChar (ensureAscii : Bool) (c : Char) : List Char :=
  if c = '"' then ['\\', '"']
  else if c = '\\' then ['\\', '\\']
  else if c.toNat = 8 then ['\\', 'b']
  else if c.toNat = 9 then ['\\', 't']
  else if c.toNat = 10 then ['\\', 'n']
  else if c.toNat = 12 then ['\\', 'f']
  else if c.toNat = 13 then ['\\', 'r']
  else if c.toNat < 32 then '\\' :: 'u' :: hex4 c.toNat
  else if ensureAscii && decide (c.toNat > 126) then
    if c.toNat < 65536 then '\\' :: 'u' :: hex4 c.toNat
    else '\\' :: 'u' :: hex4 (55296 + (c.toNat - 65536) / 1024) ++
         '\\' :: 'u' :: hex4 (56320 + (c.toNat - 65536) % 1024)
  else [c]

/-- A JSON string literal with its quotes, as `json.dumps` renders it. -/
def escString (ea : Bool) (s : String) : List Char :=
  '"' :: (s.data.map (escChar ea)).flatten ++ ['"']

/-- Decimal digit character. -/
def digitChar (n : Nat) : Char := Char.ofNat (48 + n % 10)

/-- Decimal digits of a natural number, most significant first. -/
def natReprChars (n : Nat) : List Char :=
  if _h : n < 10 then [digitChar n]
  else natReprChars (n / 10) ++ [digitChar (n % 10)]
termination_by n
decreasing_by exact Nat.div_lt_self (by omega) (by omega)

/-- Python `str(i)` for an integer. -/
def intChars (i : Int) : List Char :=
  if i < 0 then '-' :: natReprChars i.natAbs else natReprChars i.natAbs

mutual

/-- Python `json.dumps` with the default separators `", "` and `": "`,
producing the characters of the serialized text. -/
def dumpsVal (ea : Bool) : Json → List Char
  | .null => "null".data
  | .bool true => "true".data
  | .bool false => "false".data
  | .num n => intChars n
  | .str s => escString ea s
  | .arr [] => "[]".data
  | .arr (x :: xs) => '[' :: ((dumpsVal ea x ++ dumpsArrItems ea xs) ++ [']'])
  | .obj [] => [lbrace, rbrace]
  | .obj ((k, v) :: kvs) =>
      lbrace :: ((escString ea k ++ ": ".data ++ dumpsVal ea v ++ dumpsObjItems ea kvs) ++ [rbrace])

/-- Remaining array elements, each preceded by `", "`. -/
def dumpsArrItems (ea : Bool) : List Json → List Char
  | [] => []
  | x :: xs => ", ".data ++ dumpsVal ea x ++ dumpsArrItems ea xs

/-- Remaining object members, each preceded by `", "`. -/
def dumpsObjItems (ea : Bool) : List (String × Json) → List Char
  | [] => []
  | (k, v) :: kvs => ", ".data ++ escString ea k ++ ": ".data ++ dumpsVal ea v ++ dumpsObjItems ea kvs

end

/-- `json.dumps` as a string. -/
def dumps (ea : Bool) (v : Json) : String := String.mk (dumpsVal ea v)

/-- UTF-8 encoding of one character (Unicode scalar value), as Python
`str.encode("utf-8")` produces it. -/
def utf8Char (c : Char) : List Nat :=
  if c.toNat < 128 then [c.toNat]
  else if c.toNat < 2048 then [192 + c.toNat / 64, 128 + c.toNat % 64]
  else if c.toNat < 65536 then
    [224 + c.toNat / 4096, 128 + c.toNat / 64 % 64, 128 + c.toNat % 64]
  else
    [240 + c.toNat / 262144, 128 + c.toNat / 4096 % 64, 128 + c.toNat / 64 % 64, 128 + c.toNat % 64]

/-- UTF-8 encoding of a character sequence. -/
def utf8List (cs : List Char) : List Nat := (cs.map utf8Char).flatten

/-- Python `s.encode("utf-8")`, bytes as naturals below 256. -/
def utf8Bytes (s : String) : List Nat := utf8List s.data

theorem utf8Char_no13 (c : Char) (hc : c.toNat ≠ 13) : ∀ b ∈ utf8Char c, b ≠ 13 := by
  intro b hb
  unfold utf8Char at hb
  split at hb
  · simp at hb; omega
  · split at hb
    · simp at hb; rcases hb with h | h <;> omega
    · split at hb
      · simp at hb; rcases hb with h | h | h <;> omega
      · simp at hb; rcases hb with h | h | h | h <;> omega

theorem utf8List_no13 (cs : List Char) (h : ∀ c ∈ cs, c.toNat ≠ 13) :
    ∀ b ∈ utf8List cs, b ≠ 13 := by
  intro b hb
  unfold utf8List at hb
  rw [List.mem_flatten] at hb
  obtain ⟨l, hl, hbl⟩ := hb
  rw [List.mem_map] at hl
  obtain ⟨c, hc, rfl⟩ := hl
  exact utf8Char_no13 c (h c hc) b hbl

theorem escChar_no_cr (ea : Bool) (c : Char) : ∀ d ∈ escChar ea c, d.toNat ≠ 13 := by
  have hx : ∀ m : Nat, m < 16 → (hexDigit m).toNat ≠ 13 := by decide
  have hx4 : ∀ n : Nat, ∀ d ∈ hex4 n, d.toNat ≠ 13 := by
    intro n d hd
    simp only [hex4, List.mem_cons, List.not_mem_nil, or_false] at hd
    rcases hd with h | h | h | h <;> subst h <;> exact hx _ (Nat.mod_lt _ (by omega))
  have hu : ∀ (n : Nat), ∀ d ∈ ('\\' :: 'u' :: hex4 n), d.toNat ≠ 13 := by
    intro n d hd
    rcases List.mem_cons.1 hd with h | hd
    · subst h; decide
    rcases List.mem_cons.1 hd with h | hd
    · subst h; decide
    exact hx4 n d hd
  intro d hd
  unfold escChar at hd
  split at hd
  · fin_cases hd <;> decide
  split at hd
  · fin_cases hd <;> decide
  split at hd
  · fin_cases hd <;> decide
  split at hd
  · fin_cases hd <;> decide
  split at hd
  · fin_cases hd <;> decide
  split at hd
  · fin_cases hd <;> decide
  split at hd
  · fin_cases hd <;> decide
  split at hd
  · exact hu _ d hd
  split at hd
  · split at hd
    · exact hu _ d hd
    · rcases List.mem_append.1 hd with h | h
      · exact hu _ d h
      · exact hu _ d h
  · simp at hd
    subst hd
    rename_i h8 h9 h10 h12 h13 h32 _
    omega

theorem escString_no_cr (ea : Bool) (s : String) : ∀ d ∈ escString ea s, d.toNat ≠ 13 := by
  intro d hd
  rcases List.mem_cons.1 hd with h | hd
  · subst h; decide
  rcases List.mem_append.1 hd with hd | h
  · rw [List.mem_flatten] at hd
    obtain ⟨l, hl, hdl⟩ := hd
    rw [List.mem_map] at hl
    obtain ⟨c, _, rfl⟩ := hl
    exact escChar_no_cr ea c d hdl
  · fin_cases h; decide

theorem digitChar_no_cr (n : Nat) : (digitChar n).toNat ≠ 13 := by
  have h : ∀ m : Nat, m < 10 → (Char.ofNat (48 + m)).toNat ≠ 13 := by decide
  exact h _ (Nat.mod_lt _ (by omega))

theorem natReprChars_no_cr (n : Nat) : ∀ d ∈ natReprChars n, d.toNat ≠ 13 := by
  induction n using Nat.strong_induction_on with
  | _ n ih =>
    intro d hd
    rw [natReprChars] at hd
    split at hd
    · simp at hd; subst hd; exact digitChar_no_cr n
    · rcases List.mem_append.1 hd with hd | hd
      · exact ih (n / 10) (Nat.div_lt_self (by omega) (by omega)) d hd
      · simp at hd; subst hd; exact digitChar_no_cr _

theorem intChars_no_cr (i : Int) : ∀ d ∈ intChars i, d.toNat ≠ 13 := by
  intro d hd
  unfold intChars at hd
  split at hd
  · rcases List.mem_cons.1 hd with h | hd
    · subst h; decide
    · exact natReprChars_no_cr _ d hd
  · exact natReprChars_no_cr _ d hd

mutual

theorem dumpsVal_no_cr (ea : Bool) : ∀ (v : Json), ∀ d ∈ dumpsVal ea v, d.toNat ≠ 13
  | .null => by
      intro d hd
      have h : ∀ d ∈ "null".data, Char.toNat d ≠ 13 := by decide
      simp only [dumpsVal] at hd
      exact h d hd
  | .bool true => by
      intro d hd
      have h : ∀ d ∈ "true".data, Char.toNat d ≠ 13 := by decide
      simp only [dumpsVal] at hd
      exact h d hd
  | .bool false => by
      intro d hd
      have h : ∀ d ∈ "false".data, Char.toNat d ≠ 13 := by decide
      simp only [dumpsVal] at hd
      exact h d hd
  | .num n => by
      intro d hd
      simp only [dumpsVal] at hd
      exact intChars_no_cr n d hd
  | .str s => by
      intro d hd
      simp only [dumpsVal] at hd
      exact escString_no_cr ea s d hd
  | .arr [] => by
      intro d hd
      have h : ∀ d ∈ "[]".data, Char.toNat d ≠ 13 := by decide
      simp only [dumpsVal] at hd
      exact h d hd
  | .arr (x :: xs) => by
      have h1 := dumpsVal_no_cr ea x
      have h2 := dumpsArrItems_no_cr ea xs
      intro d hd
      simp only [dumpsVal] at hd
      rcases List.mem_cons.1 hd with h | hd
      · subst h; decide
      rcases List.mem_append.1 hd with hd | h
      · rcases List.mem_append.1 hd with hd | hd
        · exact h1 d hd
        · exact h2 d hd
      · fin_cases h; decide
  | .obj [] => by
      intro d hd
      simp only [dumpsVal] at hd
      rcases List.mem_cons.1 hd with h | h
      · subst h; decide
      · fin_cases h; decide
  | .obj ((k, v) :: kvs) => by
      have h1 := dumpsVal_no_cr ea v
      have h2 := dumpsObjItems_no_cr ea kvs
      intro d hd
      simp only [dumpsVal] at hd
      rcases List.mem_cons.1 hd with h | hd
      · subst h; decide
      rcases List.mem_append.1 hd with hd | h
      · rcases List.mem_append.1 hd with hd | hd
        · rcases List.mem_append.1 hd with hd | hd
          · rcases List.mem_append.1 hd with hd | hd
            · exact escString_no_cr ea k d hd
            · fin_cases hd <;> decide
          · exact h1 d hd
        · exact h2 d hd
      · fin_cases h; decide

theorem dumpsArrItems_no_cr (ea : Bool) : ∀ (xs : List Json), ∀ d ∈ dumpsArrItems ea xs, d.toNat ≠ 13
  | [] => by intro d hd; simp [dumpsArrItems] at hd
  | x :: xs => by
      have h1 := dumpsVal_no_cr ea x
      have h2 := dumpsArrItems_no_cr ea xs
      intro d hd
      simp only [dumpsArrItems] at hd
      rcases List.mem_append.1 hd with hd | hd
      · rcases List.mem_append.1 hd with hd | hd
        · fin_cases hd <;> decide
        · exact h1 d hd
      · exact h2 d hd

theorem dumpsObjItems_no_cr (ea : Bool) :
    ∀ (kvs : List (String × Json)), ∀ d ∈ dumpsObjItems ea kvs, d.toNat ≠ 13
  | [] => by intro d hd; simp [dumpsObjItems] at hd
  | (k, v) :: kvs => by
      have h1 := dumpsVal_no_cr ea v
      have h2 := dumpsObjItems_no_cr ea kvs
      intro d hd
      simp only [dumpsObjItems] at hd
      rcases List.mem_append.1 hd with hd | hd
      · rcases List.mem_append.1 hd with hd | hd
        · rcases List.mem_append.1 hd with hd | hd
          · rcases List.mem_append.1 hd with hd | hd
            · fin_cases hd <;> decide
            · exact escString_no_cr ea k d hd
          · fin_cases hd <;> decide
        · exact h1 d hd
      · exact h2 d hd

end

/-- Serialized JSON never contains a carriage-return byte: `json.dumps`
escapes every control character inside strings. -/
theorem dumpsBytes_no13 (ea : Bool) (v : Json) : ∀ b ∈ utf8List (dumpsVal ea v), b ≠ 13 :=
  utf8List_no13 _ (dumpsVal_no_cr ea v)

/-- Serialized JSON objects start with a left brace. -/
theorem dumpsVal_obj_head (ea : Bool) (kvs : List (String × Json)) :
    ∃ t, dumpsVal ea (Json.obj kvs) = lbrace :: t := by
  cases kvs with
  | nil => exact ⟨[rbrace], by simp [dumpsVal]⟩
  | cons kv kvs =>
      cases kv with
      | mk k v =>
          exact ⟨escString ea k ++ ':' :: ' ' :: (dumpsVal ea v ++ (dumpsObjItems ea kvs ++ [rbrace])),
            by simp [dumpsVal]⟩

/-- Carriage return + line feed, as bytes. -/
def crlfB : List Nat := [13, 10]

/-- Scan a byte string left to right for the first occurrence of `d`,
returning the bytes before it and the bytes after it. -/
def findDelim (d : List Nat) : List Nat → Option (List Nat × List Nat)
  | [] => if d.isEmpty then some ([], []) else none
  | a :: rest =>
    if d.isPrefixOf (a :: rest) then some ([], (a :: rest).drop d.length)
    else
      match findDelim d rest with
      | some (before, after) => some (a :: before, after)
      | none => none

/-- `true` when `d` occurs somewhere in `l` as a contiguous run. -/
def hasOccur (d : List Nat) : List Nat → Bool
  | [] => d.isEmpty
  | a :: rest => d.isPrefixOf (a :: rest) || hasOccur d rest

theorem isPrefixOf_length_le {d l : List Nat} (h : d.isPrefixOf l = true) :
    d.length ≤ l.length := by
  induction d generalizing l with
  | nil => simp
  | cons a d ih =>
    cases l with
    | nil => simp [List.isPrefixOf] at h
    | cons b l =>
      simp only [List.isPrefixOf, Bool.and_eq_true] at h
      have := ih h.2
      simp only [List.length_cons]
      omega

theorem isPrefixOf_append_self (d r : List Nat) : d.isPrefixOf (d ++ r) = true := by
  induction d with
  | nil => simp [List.isPrefixOf]
  | cons a d ih => simp [List.isPrefixOf, ih]

theorem isPrefixOf_append_weaken {d x : List Nat} (h : d.isPrefixOf x = true) (r : List Nat) :
    d.isPrefixOf (x ++ r) = true := by
  induction d generalizing x with
  | nil => simp [List.isPrefixOf]
  | cons a d ih =>
    cases x with
    | nil => simp [List.isPrefixOf] at h
    | cons b x =>
      simp only [List.isPrefixOf, Bool.and_eq_true] at h
      simp only [List.cons_append, List.isPrefixOf, Bool.and_eq_true]
      exact ⟨h.1, ih h.2⟩

theorem isPrefixOf_false_of_short {d l : List Nat} (h : l.length < d.length) :
    d.isPrefixOf l = false := by
  induction d generalizing l with
  | nil => simp at h
  | cons a d ih =>
    cases l with
    | nil => simp [List.isPrefixOf]
    | cons b l =>
      simp only [List.isPrefixOf]
      have : d.isPrefixOf l = false := ih (by simp at h ⊢; omega)
      simp [this]

theorem isPrefixOf_false_extend {d : List Nat} :
    ∀ {x : List Nat}, d.isPrefixOf x = false → d.length ≤ x.length →
    ∀ r, d.isPrefixOf (x ++ r) = false := by
  induction d with
  | nil => intro x h _ r; simp [List.isPrefixOf] at h
  | cons e d ih =>
    intro x h hl r
    cases x with
    | nil => simp at hl
    | cons b x =>
      simp only [List.isPrefixOf] at h
      simp only [List.cons_append, List.isPrefixOf]
      cases heb : (e == b) with
      | false => simp
      | true =>
        rw [heb] at h
        simp only [Bool.true_and] at h ⊢
        exact ih h (by simp at hl ⊢; omega) r

theorem isPrefixOf_of_append_le {d : List Nat} :
    ∀ {A : List Nat} (B : List Nat), d.isPrefixOf (A ++ B) = true → d.length ≤ A.length →
    d.isPrefixOf A = true := by
  induction d with
  | nil => intro A B _ _; simp [List.isPrefixOf]
  | cons e d ih =>
    intro A B h hl
    cases A with
    | nil => simp at hl
    | cons b A =>
      simp only [List.cons_append, List.isPrefixOf, Bool.and_eq_true] at h
      simp only [List.isPrefixOf, Bool.and_eq_true]
      exact ⟨h.1, ih B h.2 (by simp at hl ⊢; omega)⟩

theorem findDelim_length {d : List Nat} :
    ∀ {l p q : List Nat}, findDelim d l = some (p, q) →
    p.length + d.length + q.length = l.length := by
  intro l
  induction l with
  | nil =>
    intro p q h
    simp only [findDelim] at h
    split at h
    · rename_i hde
      simp at h hde
      simp [h.1, h.2, hde]
    · exact absurd h (by simp)
  | cons a rest ih =>
    intro p q h
    simp only [findDelim] at h
    split at h
    · rename_i hpre
      have hle := isPrefixOf_length_le hpre
      simp at h
      obtain ⟨hp, hq⟩ := h
      subst hp
      subst hq
      simp only [List.length_nil, List.length_drop]
      simp at hle ⊢
      omega
    · rename_i hpre
      cases hrec : findDelim d rest with
      | none => rw [hrec] at h; exact absurd h (by simp)
      | some pq =>
        cases pq with
        | mk p' q' =>
          rw [hrec] at h
          simp at h
          have := ih hrec
          obtain ⟨hp, hq⟩ := h
          subst hp
          subst hq
          simp
          omega

theorem findDelim_at (d r : List Nat) (hd : d ≠ []) : findDelim d (d ++ r) = some ([], r) := by
  cases d with
  | nil => exact absurd rfl hd
  | cons a d' =>
    have h1 : (a :: d').isPrefixOf ((a :: d') ++ r) = true := isPrefixOf_append_self _ _
    have h2 : ((a :: d') ++ r).drop (a :: d').length = r := List.drop_left _ _
    rw [List.cons_append] at h1 h2 ⊢
    rw [findDelim, if_pos h1, h2]

theorem findDelim_cons_neg {d : List Nat} {b : Nat} {l : List Nat}
    (h : d.isPrefixOf (b :: l) = false) :
    findDelim d (b :: l) = (findDelim d l).map (fun pq => (b :: pq.1, pq.2)) := by
  rw [findDelim, if_neg (by simp [h])]
  cases hfd : findDelim d l with
  | none => simp
  | some pq => cases pq; simp

theorem findDelim_skip {a : Nat} {d' : List Nat} (x y : List Nat) (hx : ∀ b ∈ x, b ≠ a) :
    findDelim (a :: d') (x ++ y) =
      (findDelim (a :: d') y).map (fun pq => (x ++ pq.1, pq.2)) := by
  induction x with
  | nil =>
    simp only [List.nil_append]
    cases hfd : findDelim (a :: d') y with
    | none => simp
    | some pq => cases pq; simp
  | cons b x ih =>
    have hb : b ≠ a := hx b (by simp)
    have hne : (a :: d').isPrefixOf (b :: (x ++ y)) = false := by
      simp only [List.isPrefixOf]
      have : (a == b) = false := by simp [Ne.symm hb]
      simp [this]
    rw [List.cons_append, findDelim_cons_neg hne, ih (fun c hc => hx c (by simp [hc]))]
    cases hfd : findDelim (a :: d') y with
    | none => simp
    | some pq => cases pq; simp

theorem findDelim_extend {d : List Nat} :
    ∀ {x r p q : List Nat}, findDelim d x = some (p, q) →
    findDelim d (x ++ r) = some (p, q ++ r) := by
  intro x
  induction x with
  | nil =>
    intro r p q h
    simp only [findDelim] at h
    split at h
    · rename_i hde
      simp at h hde
      subst hde
      obtain ⟨hp, hq⟩ := h
      subst hp
      subst hq
      cases r with
      | nil => simp [findDelim]
      | cons a r' => rw [List.nil_append, findDelim, if_pos (by simp [List.isPrefixOf])]; simp
    · exact absurd h (by simp)
  | cons b x ih =>
    intro r p q h
    simp only [findDelim] at h
    split at h
    · rename_i hpre
      simp at h
      obtain ⟨hp, hq⟩ := h
      subst hp
      subst hq
      rw [List.cons_append, findDelim, if_pos]
      · rw [← List.cons_append, List.drop_append_of_le_length (isPrefixOf_length_le hpre)]
      · rw [← List.cons_append]
        exact isPrefixOf_append_weaken hpre r
    · rename_i hpre
      cases hrec : findDelim d x with
      | none => rw [hrec] at h; exact absurd h (by simp)
      | some pq =>
        cases pq with
        | mk p' q' =>
          rw [hrec] at h
          simp at h
          have hlen := findDelim_length hrec
          have hpre' : d.isPrefixOf (b :: x) = false := by
            cases hb : d.isPrefixOf (b :: x) with
            | false => rfl
            | true => exact absurd hb hpre
          have hfalse : d.isPrefixOf ((b :: x) ++ r) = false :=
            isPrefixOf_false_extend hpre' (by simp; omega) r
          rw [List.cons_append] at hfalse ⊢
          rw [findDelim_cons_neg hfalse, ih hrec]
          simp [← h.1, ← h.2]

theorem findDelim_split {d : List Nat} (hd : d ≠ []) :
    ∀ (x r : List Nat), hasOccur d (x ++ d.dropLast) = false →
    findDelim d (x ++ (d ++ r)) = some (x, r) := by
  intro x
  induction x with
  | nil => intro r _; simpa using findDelim_at d r hd
  | cons b x ih =>
    intro r h
    simp only [List.cons_append, hasOccur, Bool.or_eq_false_iff, List.append_eq] at h
    have hfalse : d.isPrefixOf (b :: (x ++ (d ++ r))) = false := by
      obtain ⟨d', e, rfl⟩ : ∃ d' e, d = d' ++ [e] :=
        ⟨d.dropLast, d.getLast hd, (List.dropLast_append_getLast hd).symm⟩
      cases hcon : (d' ++ [e]).isPrefixOf (b :: (x ++ ((d' ++ [e]) ++ r))) with
      | false => rfl
      | true =>
        exfalso
        have hA : (d' ++ [e]).isPrefixOf (b :: (x ++ d')) = true := by
          have hsplit : b :: (x ++ ((d' ++ [e]) ++ r)) = (b :: (x ++ d')) ++ (e :: r) := by
            simp
          rw [hsplit] at hcon
          refine isPrefixOf_of_append_le _ hcon ?_
          simp
        rw [List.dropLast_concat] at h
        rw [hA] at h
        exact absurd h.1 (by simp)
    rw [List.cons_append, findDelim_cons_neg hfalse, ih r h.2]
    simp

/-- Byte-level `b"\r\n".join(...)` from `graphql_upload`. -/
def joinCrlf : List (List Nat) → List Nat
  | [] => []
  | [x] => x
  | x :: xs => x ++ crlfB ++ joinCrlf xs

/-- The multipart boundary generated by `graphql_upload`:
`----anvil-boundary-` followed by the random `uuid.uuid4().hex`. -/
def mkBoundary (bhex : String) : List Nat := utf8Bytes ("----anvil-boundary-" ++ bhex)

/-- The multipart/form-data body built by `graphql_upload` of
`create_anvil_template.py`: parts `operations`, `map` and `0` in order,
each opened by `--boundary` and a `Content-Disposition` header (plus a
`Content-Type` header), followed by a blank line and the content, all
joined with `\r\n` and closed by `--boundary--` and a final `\r\n`.
`bhex` is the random hex of `uuid.uuid4().hex`; `fname` and `mime` are the
uploaded file's name and guessed MIME type. -/
def graphql_upload_body (bhex query : String) (vars : Json)
    (upload_var_path fname mime : String) (file_bytes : List Nat) : List Nat :=
  let boundary := mkBoundary bhex
  let operations := Json.obj [("query", Json.str query), ("variables", vars)]
  let mapping := Json.obj [("0", Json.arr [Json.str upload_var_path])]
  let hdr0 := joinCrlf [[45, 45] ++ boundary,
    utf8Bytes "Content-Disposition: form-data; name=\"operations\"",
    utf8Bytes "Content-Type: application/json", []]
  let hdr1 := joinCrlf [[45, 45] ++ boundary,
    utf8Bytes "Content-Disposition: form-data; name=\"map\"",
    utf8Bytes "Content-Type: application/json", []]
  let hdr2 := joinCrlf [[45, 45] ++ boundary,
    utf8Bytes ("Content-Disposition: form-data; name=\"0\"; filename=\"" ++ fname ++ "\""),
    utf8Bytes ("Content-Type: " ++ mime), []]
  joinCrlf [hdr0, utf8List (dumpsVal true operations),
    hdr1, utf8List (dumpsVal true mapping),
    hdr2, file_bytes,
    [45, 45] ++ boundary ++ [45, 45]] ++ crlfB

/-- Modelled from the spec: the part loop of a standards-compliant
multipart parser. `d` is the delimiter `\r\n--boundary`; after each
delimiter the parser accepts `--` (closing delimiter, the rest is
epilogue) or `\r\n` followed by a part that runs to the next delimiter.
The fuel argument only bounds the recursion; any fuel at least the input
length is enough, since every part consumes bytes. -/
def parseLoopF (d : List Nat) : Nat → List Nat → Option (List (List Nat))
  | 0, _ => none
  | fuel + 1, rest =>
    if [45, 45].isPrefixOf rest then some []
    else if crlfB.isPrefixOf rest then
      match findDelim d (rest.drop 2) with
      | some (raw, post) =>
        match parseLoopF d fuel post with
        | some parts => some (raw :: parts)
        | none => none
      | none => none
    else none

/-- Modelled from the spec: split a raw part at its first blank line
(`\r\n\r\n`) into header block and content. -/
def splitHeaders (raw : List Nat) : Option (List Nat × List Nat) :=
  findDelim (crlfB ++ crlfB) raw

/-- Modelled from the spec: the value of the first `name="..."` parameter
occurring in a part's header block. -/
def partName (hdr : List Nat) : Option (List Nat) :=
  match findDelim (utf8Bytes "name=\"") hdr with
  | some (_, post) =>
    match findDelim [34] post with
    | some (nm, _) => some nm
    | none => none
  | none => none

/-- Header and name extraction for each raw part, in order. -/
def partsOf : List (List Nat) → Option (List (List Nat × List Nat))
  | [] => some []
  | raw :: raws =>
    match splitHeaders raw with
    | some (hdr, content) =>
      match partName hdr with
      | some nm =>
        match partsOf raws with
        | some rest => some ((nm, content) :: rest)
        | none => none
      | none => none
    | none => none

/-- Modelled from the spec: a standards-compliant multipart/form-data
parser. Given the boundary declared in the `Content-Type` header, it
requires the body to open with `--boundary`, splits at every
`\r\n--boundary` delimiter, and yields each part's
`Content-Disposition` name with its content (the bytes between the
part's blank line and the next delimiter); `none` is a parse error. -/
def multipartParse (boundary body : List Nat) : Option (List (List Nat × List Nat)) :=
  if ([45, 45] ++ boundary).isPrefixOf body then
    match parseLoopF (crlfB ++ [45, 45] ++ boundary) body.length (body.drop (2 + boundary.length)) with
    | some raws => partsOf raws
    | none => none
  else none

theorem utf8List_append (a b : List Char) : utf8List (a ++ b) = utf8List a ++ utf8List b := by
  simp [utf8List]

theorem utf8Bytes_append (a b : String) : utf8Bytes (a ++ b) = utf8Bytes a ++ utf8Bytes b := by
  simp [utf8Bytes, utf8List, String.data_append]

/-- Scanning for the delimiter across one encoded part: the header block
contains no carriage return except its own line breaks, the content is
guarded by the no-early-occurrence hypothesis, so the first delimiter
found is the genuine one right after the content. -/
theorem findDelim_part {d' : List Nat} (cd ctt c r : List Nat)
    (hcd : ∀ b ∈ cd, b ≠ 13) (hct : ∀ b ∈ (67 :: ctt), b ≠ 13)
    (hocc : hasOccur (13 :: 10 :: 45 :: d')
      ((crlfB ++ crlfB ++ c) ++ (13 :: 10 :: 45 :: d').dropLast) = false) :
    findDelim (13 :: 10 :: 45 :: d')
      ((cd ++ crlfB ++ (67 :: ctt) ++ crlfB ++ crlfB ++ c) ++ ((13 :: 10 :: 45 :: d') ++ r))
      = some (cd ++ crlfB ++ (67 :: ctt) ++ crlfB ++ crlfB ++ c, r) := by
  have h3 : findDelim (13 :: 10 :: 45 :: d')
      ((crlfB ++ crlfB ++ c) ++ ((13 :: 10 :: 45 :: d') ++ r))
      = some (crlfB ++ crlfB ++ c, r) :=
    findDelim_split (by simp) _ r hocc
  have h2 : findDelim (13 :: 10 :: 45 :: d')
      ((67 :: ctt) ++ ((crlfB ++ crlfB ++ c) ++ ((13 :: 10 :: 45 :: d') ++ r)))
      = some ((67 :: ctt) ++ (crlfB ++ crlfB ++ c), r) := by
    rw [findDelim_skip (67 :: ctt) _ (fun b hb => hct b hb), h3]
    simp
  have h1 : findDelim (13 :: 10 :: 45 :: d')
      (13 :: 10 :: ((67 :: ctt) ++ ((crlfB ++ crlfB ++ c) ++ ((13 :: 10 :: 45 :: d') ++ r))))
      = some (13 :: 10 :: ((67 :: ctt) ++ (crlfB ++ crlfB ++ c)), r) := by
    have hne1 : (13 :: 10 :: 45 :: d').isPrefixOf
        (13 :: 10 :: ((67 :: ctt) ++ ((crlfB ++ crlfB ++ c) ++ ((13 :: 10 :: 45 :: d') ++ r)))) = false := by
      simp [List.isPrefixOf]
    have hne2 : (13 :: 10 :: 45 :: d').isPrefixOf
        (10 :: ((67 :: ctt) ++ ((crlfB ++ crlfB ++ c) ++ ((13 :: 10 :: 45 :: d') ++ r)))) = false := by
      simp [List.isPrefixOf]
    rw [findDelim_cons_neg hne1, findDelim_cons_neg hne2, h2]
    simp
  have h0 : findDelim (13 :: 10 :: 45 :: d')
      (cd ++ (13 :: 10 :: ((67 :: ctt) ++ ((crlfB ++ crlfB ++ c) ++ ((13 :: 10 :: 45 :: d') ++ r)))))
      = some (cd ++ (13 :: 10 :: ((67 :: ctt) ++ (crlfB ++ crlfB ++ c))), r) := by
    rw [findDelim_skip cd _ hcd, h1]
    simp
  have heq : (cd ++ crlfB ++ (67 :: ctt) ++ crlfB ++ crlfB ++ c) ++ ((13 :: 10 :: 45 :: d') ++ r)
      = cd ++ (13 :: 10 :: ((67 :: ctt) ++ ((crlfB ++ crlfB ++ c) ++ ((13 :: 10 :: 45 :: d') ++ r)))) := by
    simp [crlfB]
  have heq2 : cd ++ crlfB ++ (67 :: ctt) ++ crlfB ++ crlfB ++ c
      = cd ++ (13 :: 10 :: ((67 :: ctt) ++ (crlfB ++ crlfB ++ c))) := by
    simp [crlfB]
  rw [heq, h0, heq2]

/-- Splitting one encoded part at its first blank line finds exactly the
header block and the content. -/
theorem splitHeaders_part (cd ctt c : List Nat)
    (hcd : ∀ b ∈ cd, b ≠ 13) (hct : ∀ b ∈ (67 :: ctt), b ≠ 13) :
    splitHeaders (cd ++ crlfB ++ (67 :: ctt) ++ crlfB ++ crlfB ++ c)
      = some (cd ++ crlfB ++ (67 :: ctt), c) := by
  have h3 : findDelim (crlfB ++ crlfB) ((crlfB ++ crlfB) ++ c) = some ([], c) :=
    findDelim_at _ _ (by simp [crlfB])
  have h2 : findDelim (crlfB ++ crlfB) ((67 :: ctt) ++ ((crlfB ++ crlfB) ++ c))
      = some ((67 :: ctt), c) := by
    have : findDelim (13 :: 10 :: 13 :: [10]) ((67 :: ctt) ++ ((crlfB ++ crlfB) ++ c))
        = some ((67 :: ctt) ++ [], c) := by
      rw [findDelim_skip (67 :: ctt) _ (fun b hb => hct b hb)]
      have h3' : findDelim (13 :: 10 :: 13 :: [10]) ((crlfB ++ crlfB) ++ c) = some ([], c) := by
        simpa [crlfB] using h3
      rw [h3']
      simp
    simpa [crlfB] using this
  have h1 : findDelim (crlfB ++ crlfB)
      (13 :: 10 :: ((67 :: ctt) ++ ((crlfB ++ crlfB) ++ c)))
      = some (13 :: 10 :: (67 :: ctt), c) := by
    have hne1 : (13 :: 10 :: 13 :: [10]).isPrefixOf
        (13 :: 10 :: ((67 :: ctt) ++ ((crlfB ++ crlfB) ++ c))) = false := by
      simp [List.isPrefixOf]
    have hne2 : (13 :: 10 :: 13 :: [10]).isPrefixOf
        (10 :: ((67 :: ctt) ++ ((crlfB ++ crlfB) ++ c))) = false := by
      simp [List.isPrefixOf]
    have h2' : findDelim (13 :: 10 :: 13 :: [10]) ((67 :: ctt) ++ ((crlfB ++ crlfB) ++ c))
        = some ((67 :: ctt), c) := by simpa [crlfB] using h2
    have : findDelim (13 :: 10 :: 13 :: [10])
        (13 :: 10 :: ((67 :: ctt) ++ ((crlfB ++ crlfB) ++ c)))
        = some (13 :: 10 :: (67 :: ctt), c) := by
      rw [findDelim_cons_neg hne1, findDelim_cons_neg hne2, h2']
      simp
    simpa [crlfB] using this
  have h0 : findDelim (crlfB ++ crlfB)
      (cd ++ (13 :: 10 :: ((67 :: ctt) ++ ((crlfB ++ crlfB) ++ c))))
      = some (cd ++ (13 :: 10 :: (67 :: ctt)), c) := by
    have : findDelim (13 :: 10 :: 13 :: [10])
        (cd ++ (13 :: 10 :: ((67 :: ctt) ++ ((crlfB ++ crlfB) ++ c))))
        = some (cd ++ (13 :: 10 :: (67 :: ctt)), c) := by
      rw [findDelim_skip cd _ hcd]
      have h1' : findDelim (13 :: 10 :: 13 :: [10])
          (13 :: 10 :: ((67 :: ctt) ++ ((crlfB ++ crlfB) ++ c)))
          = some (13 :: 10 :: (67 :: ctt), c) := by simpa [crlfB] using h1
      rw [h1']
      simp
    simpa [crlfB] using this
  have heq : cd ++ crlfB ++ (67 :: ctt) ++ crlfB ++ crlfB ++ c
      = cd ++ (13 :: 10 :: ((67 :: ctt) ++ ((crlfB ++ crlfB) ++ c))) := by
    simp [crlfB]
  have heq2 : cd ++ crlfB ++ (67 :: ctt)
      = cd ++ (13 :: 10 :: (67 :: ctt)) := by
    simp [crlfB]
  rw [splitHeaders, heq, h0, heq2]

theorem hasOccur_cons_neg {d : List Nat} {b : Nat} {l : List Nat}
    (h : d.isPrefixOf (b :: l) = false) : hasOccur d (b :: l) = hasOccur d l := by
  simp [hasOccur, h]

theorem hasOccur_skip {a : Nat} {d' : List Nat} (x y : List Nat) (hx : ∀ b ∈ x, b ≠ a) :
    hasOccur (a :: d') (x ++ y) = hasOccur (a :: d') y := by
  induction x with
  | nil => simp
  | cons b x ih =>
    have hb : b ≠ a := hx b (by simp)
    have hne : (a :: d').isPrefixOf (b :: (x ++ y)) = false := by
      simp only [List.isPrefixOf]
      have : (a == b) = false := by simp [Ne.symm hb]
      simp [this]
    rw [List.cons_append, hasOccur_cons_neg hne, ih (fun c hc => hx c (by simp [hc]))]

theorem hasOccur_short {d l : List Nat} (h : l.length < d.length) : hasOccur d l = false := by
  induction l with
  | nil =>
    cases d with
    | nil => simp at h
    | cons a d => simp [hasOccur]
  | cons b l ih =>
    have h1 : d.isPrefixOf (b :: l) = false := isPrefixOf_false_of_short h
    rw [hasOccur_cons_neg h1]
    exact ih (by simp at h ⊢; omega)

/-- No early delimiter occurrence in a blank line followed by serialized
JSON: the serialization contains no carriage return and opens with a
brace, while the delimiter starts with `\r\n-`. -/
theorem hasOccur_json_false (d' : List Nat) (kvs : List (String × Json)) :
    hasOccur (13 :: 10 :: 45 :: d')
      ((crlfB ++ crlfB ++ utf8List (dumpsVal true (Json.obj kvs)))
        ++ (13 :: 10 :: 45 :: d').dropLast) = false := by
  obtain ⟨t, ht⟩ := dumpsVal_obj_head true kvs
  have hc : utf8List (dumpsVal true (Json.obj kvs)) = 123 :: utf8List t := by
    rw [ht]
    show utf8List ([lbrace] ++ t) = _
    rw [utf8List_append]
    rfl
  have htail : ∀ b ∈ utf8List t, b ≠ 13 := by
    intro b hb
    refine dumpsBytes_no13 true (Json.obj kvs) b ?_
    rw [hc]
    exact List.mem_cons_of_mem _ hb
  have hshort : hasOccur (13 :: 10 :: 45 :: d') (13 :: 10 :: 45 :: d').dropLast = false :=
    hasOccur_short (by simp [List.length_dropLast])
  have hskip : hasOccur (13 :: 10 :: 45 :: d')
      (utf8List t ++ (13 :: 10 :: 45 :: d').dropLast) = false := by
    rw [hasOccur_skip _ _ htail]
    exact hshort
  have heq : (crlfB ++ crlfB ++ utf8List (dumpsVal true (Json.obj kvs)))
        ++ (13 :: 10 :: 45 :: d').dropLast
      = 13 :: 10 :: 13 :: 10 :: 123 :: (utf8List t ++ (13 :: 10 :: 45 :: d').dropLast) := by
    rw [hc]; simp [crlfB]
  rw [heq]
  rw [hasOccur_cons_neg (by simp [List.isPrefixOf])]
  rw [hasOccur_cons_neg (by simp [List.isPrefixOf])]
  rw [hasOccur_cons_neg (by simp [List.isPrefixOf])]
  rw [hasOccur_cons_neg (by simp [List.isPrefixOf])]
  rw [hasOccur_cons_neg (by simp [List.isPrefixOf])]
  exact hskip

theorem parseLoopF_step (d : List Nat) (fuel : Nat) (raw post r : List Nat)
    (hfd : findDelim d r = some (raw, post)) :
    parseLoopF d (fuel + 1) (13 :: 10 :: r)
      = (parseLoopF d fuel post).map (fun parts => raw :: parts) := by
  rw [parseLoopF]
  rw [if_neg (show ¬([45, 45].isPrefixOf (13 :: 10 :: r) = true) by simp [List.isPrefixOf])]
  rw [if_pos (show crlfB.isPrefixOf (13 :: 10 :: r) = true by simp [crlfB, List.isPrefixOf])]
  have hdrop : (13 :: 10 :: r).drop 2 = r := rfl
  rw [hdrop, hfd]
  cases hp : parseLoopF d fuel post <;> simp [hp]

theorem parseLoopF_close (d : List Nat) (fuel : Nat) (r : List Nat) :
    parseLoopF d (fuel + 1) (45 :: 45 :: r) = some [] := by
  rw [parseLoopF]
  rw [if_pos (show [45, 45].isPrefixOf (45 :: 45 :: r) = true by simp [List.isPrefixOf])]

theorem parseLoopF_fail (d : List Nat) (fuel : Nat) (b : Nat) (r : List Nat)
    (hb1 : b ≠ 45) (hb2 : b ≠ 13) : parseLoopF d fuel (b :: r) = none := by
  cases fuel with
  | zero => rw [parseLoopF]
  | succ f =>
    rw [parseLoopF]
    rw [if_neg (show ¬([45, 45].isPrefixOf (b :: r) = true) by
      simp [List.isPrefixOf]
      intro h
      exact absurd h.symm hb1)]
    rw [if_neg (show ¬(crlfB.isPrefixOf (b :: r) = true) by
      simp [crlfB, List.isPrefixOf]
      intro h
      exact absurd h.symm hb2)]

/-- The `operations` JSON built by `graphql_upload`. -/
def opsJson (query : String) (vars : Json) : Json :=
  Json.obj [("query", Json.str query), ("variables", vars)]

/-- The `map` JSON built by `graphql_upload`. -/
def mapJson (upload_var_path : String) : Json :=
  Json.obj [("0", Json.arr [Json.str upload_var_path])]

/-- The delimiter `\r\n--boundary` of the generated body. -/
def uDelim (bhex : String) : List Nat := 13 :: 10 :: 45 :: 45 :: mkBoundary bhex

/-- `Content-Disposition` header of the `operations` part. -/
def cdPart0 : List Nat := utf8Bytes "Content-Disposition: form-data; name=\"operations\""

/-- `Content-Disposition` header of the `map` part. -/
def cdPart1 : List Nat := utf8Bytes "Content-Disposition: form-data; name=\"map\""

/-- `Content-Disposition` header of the file part `0`. -/
def cdPart2 (fname : String) : List Nat :=
  utf8Bytes ("Content-Disposition: form-data; name=\"0\"; filename=\"" ++ fname ++ "\"")

/-- `Content-Type` header of the two JSON parts. -/
def ctJsonHdr : List Nat := utf8Bytes "Content-Type: application/json"

/-- `Content-Type` header of the file part. -/
def ctPart2 (mime : String) : List Nat := utf8Bytes ("Content-Type: " ++ mime)

/-- Raw bytes of the `operations` part (headers, blank line, content). -/
def rawPart0 (query : String) (vars : Json) : List Nat :=
  cdPart0 ++ crlfB ++ ctJsonHdr ++ crlfB ++ crlfB ++ utf8List (dumpsVal true (opsJson query vars))

/-- Raw bytes of the `map` part. -/
def rawPart1 (upload_var_path : String) : List Nat :=
  cdPart1 ++ crlfB ++ ctJsonHdr ++ crlfB ++ crlfB
    ++ utf8List (dumpsVal true (mapJson upload_var_path))

/-- Raw bytes of the file part `0`. -/
def rawPart2 (fname mime : String) (file_bytes : List Nat) : List Nat :=
  cdPart2 fname ++ crlfB ++ ctPart2 mime ++ crlfB ++ crlfB ++ file_bytes

/-- The generated body, decomposed into dash-boundary, parts and
delimiters. -/
theorem graphql_upload_body_eq (bhex query : String) (vars : Json)
    (upload_var_path fname mime : String) (file_bytes : List Nat) :
    graphql_upload_body bhex query vars upload_var_path fname mime file_bytes
      = ([45, 45] ++ mkBoundary bhex)
        ++ (13 :: 10 :: (rawPart0 query vars
        ++ (uDelim bhex
        ++ (13 :: 10 :: (rawPart1 upload_var_path
        ++ (uDelim bhex
        ++ (13 :: 10 :: (rawPart2 fname mime file_bytes
        ++ (uDelim bhex
        ++ (45 :: 45 :: crlfB)))))))))) := by
  simp [graphql_upload_body, joinCrlf, rawPart0, rawPart1, rawPart2, uDelim,
    cdPart0, cdPart1, cdPart2, ctJsonHdr, ctPart2, opsJson, mapJson, crlfB, mkBoundary]

theorem cdPart0_no13 : ∀ b ∈ cdPart0, b ≠ 13 := by decide

theorem cdPart1_no13 : ∀ b ∈ cdPart1, b ≠ 13 := by decide

theorem ctJsonHdr_eq : ctJsonHdr = 67 :: utf8Bytes "ontent-Type: application/json" := by decide

theorem ctJsonHdr_no13 : ∀ b ∈ ctJsonHdr, b ≠ 13 := by decide

theorem cdPart2_eq (fname : String) :
    cdPart2 fname
      = utf8Bytes "Content-Disposition: form-data; name=\"0\"; filename=\""
        ++ (utf8Bytes fname ++ [34]) := by
  rw [cdPart2, utf8Bytes_append, utf8Bytes_append]
  simp
  decide

theorem cdPart2_no13 (fname : String) (hf : ∀ b ∈ utf8Bytes fname, b ≠ 13) :
    ∀ b ∈ cdPart2 fname, b ≠ 13 := by
  intro b hb
  rw [cdPart2_eq] at hb
  rcases List.mem_append.1 hb with h | h
  · exact (by decide :
      ∀ b ∈ utf8Bytes "Content-Disposition: form-data; name=\"0\"; filename=\"", b ≠ 13) b h
  rcases List.mem_append.1 h with h | h
  · exact hf b h
  · simp at h; omega

theorem ctPart2_eq (mime : String) :
    ctPart2 mime = 67 :: (utf8Bytes "ontent-Type: " ++ utf8Bytes mime) := by
  rw [ctPart2, utf8Bytes_append]
  rw [show utf8Bytes "Content-Type: " = 67 :: utf8Bytes "ontent-Type: " by decide]
  simp

theorem ctPart2_no13 (mime : String) (hm : ∀ b ∈ utf8Bytes mime, b ≠ 13) :
    ∀ b ∈ ctPart2 mime, b ≠ 13 := by
  intro b hb
  rw [ctPart2_eq] at hb
  rcases List.mem_cons.1 hb with h | h
  · omega
  rcases List.mem_append.1 h with h | h
  · exact (by decide : ∀ b ∈ utf8Bytes "ontent-Type: ", b ≠ 13) b h
  · exact hm b h

theorem partName_hdr0 : partName (cdPart0 ++ crlfB ++ ctJsonHdr) = some (utf8Bytes "operations") := by
  decide

theorem partName_hdr1 : partName (cdPart1 ++ crlfB ++ ctJsonHdr) = some (utf8Bytes "map") := by
  decide

theorem partName_hdr2 (fname mime : String) :
    partName (cdPart2 fname ++ crlfB ++ ctPart2 mime) = some (utf8Bytes "0") := by
  have hshape : cdPart2 fname ++ crlfB ++ ctPart2 mime
      = utf8Bytes "Content-Disposition: form-data; name=\"0\"; filename=\""
        ++ ((utf8Bytes fname ++ [34]) ++ (crlfB ++ ctPart2 mime)) := by
    rw [cdPart2_eq]
    simp
  have hA : findDelim (utf8Bytes "name=\"")
      (utf8Bytes "Content-Disposition: form-data; name=\"0\"; filename=\"")
      = some (utf8Bytes "Content-Disposition: form-data; ", utf8Bytes "0\"; filename=\"") := by
    decide
  have hB := findDelim_extend (r := (utf8Bytes fname ++ [34]) ++ (crlfB ++ ctPart2 mime)) hA
  have hpost : utf8Bytes "0\"; filename=\"" ++ ((utf8Bytes fname ++ [34]) ++ (crlfB ++ ctPart2 mime))
      = 48 :: 34 :: (utf8Bytes "; filename=\"" ++ ((utf8Bytes fname ++ [34]) ++ (crlfB ++ ctPart2 mime))) := by
    rw [show utf8Bytes "0\"; filename=\"" = 48 :: 34 :: utf8Bytes "; filename=\"" by decide]
    simp
  have hC : findDelim [34]
      (48 :: 34 :: (utf8Bytes "; filename=\"" ++ ((utf8Bytes fname ++ [34]) ++ (crlfB ++ ctPart2 mime))))
      = some ([48], utf8Bytes "; filename=\"" ++ ((utf8Bytes fname ++ [34]) ++ (crlfB ++ ctPart2 mime))) := by
    rw [findDelim_cons_neg (by simp [List.isPrefixOf])]
    rw [show (34 :: (utf8Bytes "; filename=\"" ++ ((utf8Bytes fname ++ [34]) ++ (crlfB ++ ctPart2 mime))))
        = [34] ++ (utf8Bytes "; filename=\"" ++ ((utf8Bytes fname ++ [34]) ++ (crlfB ++ ctPart2 mime))) by simp]
    rw [findDelim_at _ _ (by simp)]
    simp
  rw [hshape]
  unfold partName
  simp only [hB, hpost, hC]
  decide

/-- C1 (amended): for every boundary hex, query, variables object, upload
variable path, file name and MIME type without carriage returns, and file
byte sequence in which the delimiter `\r\n--boundary` does not occur
(no boundary collision — guaranteed only with overwhelming probability by
the random boundary, not absolutely), the multipart body built by
`graphql_upload`, parsed by a standards-compliant multipart parser with
the boundary declared in the Content-Type header, yields exactly three
parts named `operations`, `map`, `0` in that order, with part `0`
carrying exactly the original file bytes, and the body is terminated by
the line `--boundary--`. -/
theorem c1_multipart_roundtrip_amended (bhex query : String) (vars : Json)
    (upload_var_path fname mime : String) (file_bytes : List Nat)
    (hf : ∀ b ∈ utf8Bytes fname, b ≠ 13)
    (hm : ∀ b ∈ utf8Bytes mime, b ≠ 13)
    (hocc : hasOccur (uDelim bhex)
      ((crlfB ++ crlfB ++ file_bytes) ++ (uDelim bhex).dropLast) = false) :
    multipartParse (mkBoundary bhex)
        (graphql_upload_body bhex query vars upload_var_path fname mime file_bytes)
      = some [(utf8Bytes "operations", utf8List (dumpsVal true (opsJson query vars))),
              (utf8Bytes "map", utf8List (dumpsVal true (mapJson upload_var_path))),
              (utf8Bytes "0", file_bytes)]
      ∧ ∃ front, graphql_upload_body bhex query vars upload_var_path fname mime file_bytes
          = front ++ ([45, 45] ++ mkBoundary bhex ++ [45, 45] ++ crlfB) := by
  have hbody := graphql_upload_body_eq bhex query vars upload_var_path fname mime file_bytes
  constructor
  · -- the parse
    have hctJ : ∀ b ∈ (67 :: utf8Bytes "ontent-Type: application/json"), b ≠ 13 := by
      rw [← ctJsonHdr_eq]; exact ctJsonHdr_no13
    have hct2 : ∀ b ∈ (67 :: (utf8Bytes "ontent-Type: " ++ utf8Bytes mime)), b ≠ 13 := by
      rw [← ctPart2_eq]; exact ctPart2_no13 mime hm
    have hfd2 : findDelim (uDelim bhex)
        (rawPart2 fname mime file_bytes ++ (uDelim bhex ++ (45 :: 45 :: crlfB)))
        = some (rawPart2 fname mime file_bytes, 45 :: 45 :: crlfB) := by
      rw [uDelim] at hocc ⊢
      rw [rawPart2, ctPart2_eq]
      exact findDelim_part (cdPart2 fname) _ _ _ (cdPart2_no13 fname hf) hct2 hocc
    have hfd1 : findDelim (uDelim bhex)
        (rawPart1 upload_var_path
          ++ (uDelim bhex ++ (13 :: 10 :: (rawPart2 fname mime file_bytes
            ++ (uDelim bhex ++ (45 :: 45 :: crlfB))))))
        = some (rawPart1 upload_var_path,
            13 :: 10 :: (rawPart2 fname mime file_bytes
              ++ (uDelim bhex ++ (45 :: 45 :: crlfB)))) := by
      rw [uDelim]
      rw [rawPart1, ctJsonHdr_eq]
      refine findDelim_part cdPart1 _ _ _ cdPart1_no13 hctJ ?_
      have := hasOccur_json_false (45 :: mkBoundary bhex)
        [("0", Json.arr [Json.str upload_var_path])]
      simpa [mapJson] using this
    have hfd0 : findDelim (uDelim bhex)
        (rawPart0 query vars
          ++ (uDelim bhex ++ (13 :: 10 :: (rawPart1 upload_var_path
            ++ (uDelim bhex ++ (13 :: 10 :: (rawPart2 fname mime file_bytes
              ++ (uDelim bhex ++ (45 :: 45 :: crlfB)))))))))
        = some (rawPart0 query vars,
            13 :: 10 :: (rawPart1 upload_var_path
              ++ (uDelim bhex ++ (13 :: 10 :: (rawPart2 fname mime file_bytes
                ++ (uDelim bhex ++ (45 :: 45 :: crlfB))))))) := by
      rw [uDelim]
      rw [rawPart0, ctJsonHdr_eq]
      refine findDelim_part cdPart0 _ _ _ cdPart0_no13 hctJ ?_
      have := hasOccur_json_false (45 :: mkBoundary bhex)
        [("query", Json.str query), ("variables", vars)]
      simpa [opsJson] using this
    have hcond : ([45, 45] ++ mkBoundary bhex).isPrefixOf
        (graphql_upload_body bhex query vars upload_var_path fname mime file_bytes) = true := by
      rw [hbody]; exact isPrefixOf_append_self _ _
    have hdrop : (graphql_upload_body bhex query vars upload_var_path fname mime file_bytes).drop
        (2 + (mkBoundary bhex).length)
        = 13 :: 10 :: (rawPart0 query vars
          ++ (uDelim bhex ++ (13 :: 10 :: (rawPart1 upload_var_path
            ++ (uDelim bhex ++ (13 :: 10 :: (rawPart2 fname mime file_bytes
              ++ (uDelim bhex ++ (45 :: 45 :: crlfB))))))))) := by
      rw [hbody]
      rw [show 2 + (mkBoundary bhex).length = ([45, 45] ++ mkBoundary bhex).length by simp; omega]
      exact List.drop_left _ _
    obtain ⟨k, hk⟩ : ∃ k,
        (graphql_upload_body bhex query vars upload_var_path fname mime file_bytes).length
          = (((k + 1) + 1) + 1) + 1 := by
      refine ⟨(graphql_upload_body bhex query vars upload_var_path fname mime file_bytes).length - 4, ?_⟩
      have h4 : 4 ≤ (graphql_upload_body bhex query vars upload_var_path fname mime file_bytes).length := by
        rw [hbody]
        simp [crlfB, uDelim]
        omega
      omega
    have hparse : parseLoopF (crlfB ++ [45, 45] ++ mkBoundary bhex)
        ((((k + 1) + 1) + 1) + 1)
        (13 :: 10 :: (rawPart0 query vars
          ++ (uDelim bhex ++ (13 :: 10 :: (rawPart1 upload_var_path
            ++ (uDelim bhex ++ (13 :: 10 :: (rawPart2 fname mime file_bytes
              ++ (uDelim bhex ++ (45 :: 45 :: crlfB))))))))))
        = some [rawPart0 query vars, rawPart1 upload_var_path, rawPart2 fname mime file_bytes] := by
      rw [show crlfB ++ [45, 45] ++ mkBoundary bhex = uDelim bhex by simp [crlfB, uDelim]]
      rw [parseLoopF_step _ _ _ _ _ hfd0]
      rw [parseLoopF_step _ _ _ _ _ hfd1]
      rw [parseLoopF_step _ _ _ _ _ hfd2]
      rw [parseLoopF_close]
      simp
    have hp0 : splitHeaders (rawPart0 query vars)
        = some (cdPart0 ++ crlfB ++ ctJsonHdr,
            utf8List (dumpsVal true (opsJson query vars))) := by
      rw [rawPart0, ctJsonHdr_eq]
      exact splitHeaders_part cdPart0 _ _ cdPart0_no13 hctJ
    have hp1 : splitHeaders (rawPart1 upload_var_path)
        = some (cdPart1 ++ crlfB ++ ctJsonHdr,
            utf8List (dumpsVal true (mapJson upload_var_path))) := by
      rw [rawPart1, ctJsonHdr_eq]
      exact splitHeaders_part cdPart1 _ _ cdPart1_no13 hctJ
    have hp2 : splitHeaders (rawPart2 fname mime file_bytes)
        = some (cdPart2 fname ++ crlfB ++ ctPart2 mime, file_bytes) := by
      rw [rawPart2, ctPart2_eq]
      exact splitHeaders_part (cdPart2 fname) _ _ (cdPart2_no13 fname hf) hct2
    rw [multipartParse, if_pos hcond, hdrop, hk, hparse]
    simp only [partsOf, hp0, hp1, hp2, partName_hdr0, partName_hdr1,
      partName_hdr2 fname mime]
  · refine ⟨([45, 45] ++ mkBoundary bhex)
      ++ (13 :: 10 :: (rawPart0 query vars
      ++ (uDelim bhex
      ++ (13 :: 10 :: (rawPart1 upload_var_path
      ++ (uDelim bhex
      ++ (13 :: 10 :: (rawPart2 fname mime file_bytes ++ [13, 10])))))))), ?_⟩
    rw [hbody]
    simp [uDelim, crlfB]

/-- Witness for C1 (amended): a concrete boundary hex, query, variables,
filename, MIME type and PDF-header file bytes satisfy the hypotheses, and
the theorem yields the three-part parse. -/
theorem c1_multipart_roundtrip_witness :
    ((∀ b ∈ utf8Bytes "form.pdf", b ≠ 13) ∧ (∀ b ∈ utf8Bytes "application/pdf", b ≠ 13) ∧
      hasOccur (uDelim "abc123")
        ((crlfB ++ crlfB ++ [37, 80, 68, 70]) ++ (uDelim "abc123").dropLast) = false) ∧
    (multipartParse (mkBoundary "abc123")
        (graphql_upload_body "abc123" "mutation CreateCast" Json.null "variables.file"
          "form.pdf" "application/pdf" [37, 80, 68, 70])
      = some [(utf8Bytes "operations",
                utf8List (dumpsVal true (opsJson "mutation CreateCast" Json.null))),
              (utf8Bytes "map", utf8List (dumpsVal true (mapJson "variables.file"))),
              (utf8Bytes "0", [37, 80, 68, 70])]
      ∧ ∃ front, graphql_upload_body "abc123" "mutation CreateCast" Json.null "variables.file"
            "form.pdf" "application/pdf" [37, 80, 68, 70]
          = front ++ ([45, 45] ++ mkBoundary "abc123" ++ [45, 45] ++ crlfB)) :=
  ⟨⟨by decide, by decide, by decide⟩,
    c1_multipart_roundtrip_amended "abc123" "mutation CreateCast" Json.null "variables.file"
      "form.pdf" "application/pdf" [37, 80, 68, 70] (by decide) (by decide) (by decide)⟩

/-- C1 counterexample: when the uploaded file's bytes contain the
delimiter `\r\n--boundary` (possible, since the boundary does not depend
on the file), a standards-compliant parse of the built body does not
yield the three claimed parts — it fails outright. -/
theorem c1_multipart_boundary_collision :
    multipartParse (mkBoundary "")
        (graphql_upload_body "" "q" Json.null "variables.file" "f.pdf" "application/pdf"
          (uDelim "" ++ [65]))
      = none
    ∧ ¬ (multipartParse (mkBoundary "")
        (graphql_upload_body "" "q" Json.null "variables.file" "f.pdf" "application/pdf"
          (uDelim "" ++ [65]))
      = some [(utf8Bytes "operations", utf8List (dumpsVal true (opsJson "q" Json.null))),
              (utf8Bytes "map", utf8List (dumpsVal true (mapJson "variables.file"))),
              (utf8Bytes "0", uDelim "" ++ [65])]) := by
  have hbody := graphql_upload_body_eq "" "q" Json.null "variables.file" "f.pdf"
    "application/pdf" (uDelim "" ++ [65])
  have hctJ : ∀ b ∈ (67 :: utf8Bytes "ontent-Type: application/json"), b ≠ 13 := by decide
  have hfd2 : findDelim (uDelim "")
      (rawPart2 "f.pdf" "application/pdf" (uDelim "" ++ [65])
        ++ (uDelim "" ++ (45 :: 45 :: crlfB)))
      = some (cdPart2 "f.pdf" ++ crlfB ++ ctPart2 "application/pdf" ++ crlfB ++ crlfB,
          65 :: (uDelim "" ++ (45 :: 45 :: crlfB))) := by decide
  have hfd1 : findDelim (uDelim "")
      (rawPart1 "variables.file"
        ++ (uDelim "" ++ (13 :: 10 :: (rawPart2 "f.pdf" "application/pdf" (uDelim "" ++ [65])
          ++ (uDelim "" ++ (45 :: 45 :: crlfB))))))
      = some (rawPart1 "variables.file",
          13 :: 10 :: (rawPart2 "f.pdf" "application/pdf" (uDelim "" ++ [65])
            ++ (uDelim "" ++ (45 :: 45 :: crlfB)))) := by
    rw [uDelim]
    rw [rawPart1, ctJsonHdr_eq]
    refine findDelim_part cdPart1 _ _ _ cdPart1_no13 hctJ ?_
    have := hasOccur_json_false (45 :: mkBoundary "")
      [("0", Json.arr [Json.str "variables.file"])]
    simpa [mapJson] using this
  have hfd0 : findDelim (uDelim "")
      (rawPart0 "q" Json.null
        ++ (uDelim "" ++ (13 :: 10 :: (rawPart1 "variables.file"
          ++ (uDelim "" ++ (13 :: 10 :: (rawPart2 "f.pdf" "application/pdf" (uDelim "" ++ [65])
            ++ (uDelim "" ++ (45 :: 45 :: crlfB)))))))))
      = some (rawPart0 "q" Json.null,
          13 :: 10 :: (rawPart1 "variables.file"
            ++ (uDelim "" ++ (13 :: 10 :: (rawPart2 "f.pdf" "application/pdf" (uDelim "" ++ [65])
              ++ (uDelim "" ++ (45 :: 45 :: crlfB))))))) := by
    rw [uDelim]
    rw [rawPart0, ctJsonHdr_eq]
    refine findDelim_part cdPart0 _ _ _ cdPart0_no13 hctJ ?_
    have := hasOccur_json_false (45 :: mkBoundary "")
      [("query", Json.str "q"), ("variables", Json.null)]
    simpa [opsJson] using this
  have hcond : ([45, 45] ++ mkBoundary "").isPrefixOf
      (graphql_upload_body "" "q" Json.null "variables.file" "f.pdf" "application/pdf"
        (uDelim "" ++ [65])) = true := by
    rw [hbody]; exact isPrefixOf_append_self _ _
  have hdrop : (graphql_upload_body "" "q" Json.null "variables.file" "f.pdf" "application/pdf"
      (uDelim "" ++ [65])).drop (2 + (mkBoundary "").length)
      = 13 :: 10 :: (rawPart0 "q" Json.null
        ++ (uDelim "" ++ (13 :: 10 :: (rawPart1 "variables.file"
          ++ (uDelim "" ++ (13 :: 10 :: (rawPart2 "f.pdf" "application/pdf" (uDelim "" ++ [65])
            ++ (uDelim "" ++ (45 :: 45 :: crlfB))))))))) := by
    rw [hbody]
    rw [show 2 + (mkBoundary "").length = ([45, 45] ++ mkBoundary "").length by simp; omega]
    exact List.drop_left _ _
  obtain ⟨k, hk⟩ : ∃ k,
      (graphql_upload_body "" "q" Json.null "variables.file" "f.pdf" "application/pdf"
        (uDelim "" ++ [65])).length = ((k + 1) + 1) + 1 := by
    refine ⟨(graphql_upload_body "" "q" Json.null "variables.file" "f.pdf" "application/pdf"
      (uDelim "" ++ [65])).length - 3, ?_⟩
    have h4 : 4 ≤ (graphql_upload_body "" "q" Json.null "variables.file" "f.pdf"
        "application/pdf" (uDelim "" ++ [65])).length := by
      rw [hbody]
      simp [crlfB, uDelim]
      omega
    omega
  have hmain : multipartParse (mkBoundary "")
      (graphql_upload_body "" "q" Json.null "variables.file" "f.pdf" "application/pdf"
        (uDelim "" ++ [65])) = none := by
    have hparse : parseLoopF (crlfB ++ [45, 45] ++ mkBoundary "")
        (((k + 1) + 1) + 1)
        (13 :: 10 :: (rawPart0 "q" Json.null
          ++ (uDelim "" ++ (13 :: 10 :: (rawPart1 "variables.file"
            ++ (uDelim "" ++ (13 :: 10 :: (rawPart2 "f.pdf" "application/pdf" (uDelim "" ++ [65])
              ++ (uDelim "" ++ (45 :: 45 :: crlfB))))))))))
        = none := by
      rw [show crlfB ++ [45, 45] ++ mkBoundary "" = uDelim "" by simp [crlfB, uDelim]]
      rw [parseLoopF_step _ _ _ _ _ hfd0]
      rw [parseLoopF_step _ _ _ _ _ hfd1]
      rw [parseLoopF_step _ _ _ _ _ hfd2]
      rw [parseLoopF_fail _ _ 65 _ (by omega) (by omega)]
      simp
    rw [multipartParse, if_pos hcond, hdrop, hk, hparse]
  exact ⟨hmain, by rw [hmain]; simp⟩

/-- Contents of a path in the modelled file system: absent, a JSON
document, or a file whose text is not valid JSON. -/
inductive FileContent where
  | missing
  | content (j : Json)
  | badJson

/-- A Python exception escaping a helper: `runtimeError msg` is the
deliberately raised `RuntimeError` that `main` catches; `crash` stands
for any other uncaught exception (`KeyError`, `AttributeError`,
`TypeError`, `JSONDecodeError`, `FileNotFoundError`, ...). -/
inductive PyErr where
  | runtimeError (msg : String)
  | crash

/-- `resolve_template_id` of `fill_anvil_template.py`: a truthy explicit
`--template-id` wins unchanged (the metadata file is not consulted);
otherwise the metadata path must be given, exist, parse, be a dict and
hold a truthy `templateId`. -/
def resolve_template_id (template_id : Option String) (metadata_path : Option String)
    (fs : String → FileContent) : Except PyErr (Json × Option String) :=
  if strTruthy template_id then .ok (.str (template_id.getD ""), metadata_path)
  else
    match metadata_path with
    | none => .error (.runtimeError "Provide either --template-id or --template-metadata")
    | some p =>
      match fs p with
      | .missing => .error (.runtimeError ("Template metadata not found: " ++ p))
      | .badJson => .error .crash
      | .content meta =>
        match meta with
        | .obj kvs =>
          match lookupKey kvs "templateId" with
          | some v =>
            if v.truthy then .ok (v, some p)
            else .error (.runtimeError ("templateId missing in metadata: " ++ p))
          | none => .error (.runtimeError ("templateId missing in metadata: " ++ p))
        | _ => .error .crash

/-- `resolve_payload_path` of `fill_anvil_template.py`: a truthy explicit
`--payload` wins; otherwise the metadata file is read (this time without
an existence check — a missing file is an uncaught exception) and must
hold a truthy `examplePayloadPath`; a truthy non-string value crashes in
`Path(...)`. -/
def resolve_payload_path (payload_path : Option String) (metadata_path : Option String)
    (fs : String → FileContent) : Except PyErr String :=
  if strTruthy payload_path then .ok (payload_path.getD "")
  else
    match metadata_path with
    | none => .error (.runtimeError "Provide --payload when using --template-id directly")
    | some p =>
      match fs p with
      | .missing => .error .crash
      | .badJson => .error .crash
      | .content meta =>
        match meta with
        | .obj kvs =>
          match lookupKey kvs "examplePayloadPath" with
          | some (.str s) =>
            if s.isEmpty then
              .error (.runtimeError "examplePayloadPath missing in metadata; provide --payload explicitly")
            else .ok s
          | some v =>
            if v.truthy then .error .crash
            else .error (.runtimeError "examplePayloadPath missing in metadata; provide --payload explicitly")
          | none =>
            .error (.runtimeError "examplePayloadPath missing in metadata; provide --payload explicitly")
        | _ => .error .crash

/-- Python dict assignment `d[k] = v`: overwrites in place, else appends. -/
def setKey : List (String × Json) → String → Json → List (String × Json)
  | [], k, v => [(k, v)]
  | (k', v') :: rest, k, v =>
    if k' = k then (k, v) :: rest else (k', v') :: setKey rest k v

/-- The flag injection of the filler's `main`: unless `--no-interactive`
was given, set `useInteractiveFields` to `true` and `defaultReadOnly` to
the `--default-read-only` toggle. -/
def inject_flags (no_interactive default_read_only : Bool)
    (payload : List (String × Json)) : List (String × Json) :=
  if no_interactive then payload
  else setKey (setKey payload "useInteractiveFields" (.bool true))
        "defaultReadOnly" (.bool default_read_only)

/-- Outcome of one HTTP exchange as `urlopen` reports it. -/
inductive HttpResult where
  | ok (body : List Nat)
  | httpError (code : Nat) (detail : String)
  | netError (msg : String)

/-- `fill_pdf` of `fill_anvil_template.py`, reduced to its error
translation (the URL and headers do not influence the abstract response):
success returns the raw bytes, a non-2xx `HTTPError` becomes the
`RuntimeError` message `Anvil API error <code>: <decoded body>`, a
transport `URLError` becomes `Network error: <cause>`. -/
def fill_pdf (resp : HttpResult) : Except String (List Nat) :=
  match resp with
  | .ok b => .ok b
  | .httpError code detail => .error ("Anvil API error " ++ toString code ++ ": " ++ detail)
  | .netError m => .error ("Network error: " ++ m)

/-- Command-line arguments of the filler (argparse defaults included;
`version_number` only alters the request URL and is carried for
completeness). -/
structure FillArgs where
  template_id : Option String := none
  template_metadata : Option String := none
  payload : Option String := none
  out : String := "output/anvil_filled.pdf"
  version_number : Option Int := none
  no_interactive : Bool := false
  default_read_only : Bool := false

/-- Environment of a filler run: the `ANVIL_API_KEY` variable, the file
system, and the behaviour of the single fill request. -/
structure FillEnv where
  anvil_api_key : Option String
  fs : String → FileContent
  http : HttpResult

/-- Observable outcome of a script run. Binary files are recorded with
their bytes; persisted JSON documents are recorded as their JSON values
(their indented serialization is not modelled). `requestsMade` counts
network requests attempted; `submittedPayload` records the JSON body of
the fill request, when one was made. -/
structure RunOutcome where
  exitCode : Nat
  crashed : Bool
  stderrLines : List String
  stdoutLines : List String
  filesWritten : List (String × List Nat)
  jsonWritten : List (String × Json)
  requestsMade : Nat
  submittedPayload : Option Json

/-- Outcome of a run ending in the `except RuntimeError` handler (exit 1
with the message on stderr) or in an uncaught exception. -/
def errOutcome (e : PyErr) (reqs : Nat) (sub : Option Json) : RunOutcome :=
  match e with
  | .runtimeError m =>
    { exitCode := 1, crashed := false, stderrLines := [m], stdoutLines := [],
      filesWritten := [], jsonWritten := [], requestsMade := reqs, submittedPayload := sub }
  | .crash =>
    { exitCode := 1, crashed := true, stderrLines := [], stdoutLines := [],
      filesWritten := [], jsonWritten := [], requestsMade := reqs, submittedPayload := sub }

/-- Python `str(x)` for the values the scripts interpolate into output
lines; strings print bare (the scripts only ever print string ids, the
other cases are cosmetic). -/
def jsonToDisplay : Json → String
  | .str s => s
  | v => dumps false v

/-- `main` of `fill_anvil_template.py` over an abstract environment:
missing `ANVIL_API_KEY` exits 2 before anything else; argument
postprocessing turns falsy strings into `None`; then resolution, payload
loading, the object check, flag injection, the fill request, and—only
after everything succeeded—the output write. Every `RuntimeError` is
caught and turned into exit 1 with the message on stderr. -/
def fillerMain (args : FillArgs) (env : FillEnv) : RunOutcome :=
  if !(strTruthy env.anvil_api_key) then
    { exitCode := 2, crashed := false,
      stderrLines := ["Missing ANVIL_API_KEY environment variable"], stdoutLines := [],
      filesWritten := [], jsonWritten := [], requestsMade := 0, submittedPayload := none }
  else
    let meta_path := if strTruthy args.template_metadata then args.template_metadata else none
    let payload_arg := if strTruthy args.payload then args.payload else none
    match resolve_template_id args.template_id meta_path env.fs with
    | .error e => errOutcome e 0 none
    | .ok (template_id, resolved_meta) =>
      match resolve_payload_path payload_arg resolved_meta env.fs with
      | .error e => errOutcome e 0 none
      | .ok payload_path =>
        match env.fs payload_path with
        | .missing => errOutcome (.runtimeError ("Payload file not found: " ++ payload_path)) 0 none
        | .badJson => errOutcome .crash 0 none
        | .content payloadJson =>
          match payloadJson with
          | .obj kvs =>
            let payload := inject_flags args.no_interactive args.default_read_only kvs
            match fill_pdf env.http with
            | .ok pdf_bytes =>
              { exitCode := 0, crashed := false, stderrLines := [],
                stdoutLines := ["Filled PDF written to: " ++ args.out,
                  "Template ID: " ++ jsonToDisplay template_id,
                  "Payload used: " ++ payload_path],
                filesWritten := [(args.out, pdf_bytes)], jsonWritten := [],
                requestsMade := 1, submittedPayload := some (.obj payload) }
            | .error m => errOutcome (.runtimeError m) 1 (some (.obj payload))
          | _ => errOutcome (.runtimeError "Payload JSON must be an object") 0 none

theorem lookupKey_setKey_self (kvs : List (String × Json)) (k : String) (v : Json) :
    lookupKey (setKey kvs k v) k = some v := by
  induction kvs with
  | nil => simp [setKey, lookupKey]
  | cons kv rest ih =>
    cases kv with
    | mk k' v' =>
      by_cases h : k' = k
      · simp [setKey, h, lookupKey]
      · simp [setKey, h, lookupKey, ih]

theorem lookupKey_setKey_ne (kvs : List (String × Json)) (k j : String) (v : Json)
    (h : j ≠ k) : lookupKey (setKey kvs k v) j = lookupKey kvs j := by
  induction kvs with
  | nil => simp [setKey, lookupKey, Ne.symm h]
  | cons kv rest ih =>
    cases kv with
    | mk k' v' =>
      by_cases hk : k' = k
      · subst hk
        simp [setKey, lookupKey, Ne.symm h]
      · simp [setKey, hk, lookupKey, ih]

/-- C2: the filler's resolution policy. A truthy explicit `--template-id`
is returned unchanged whatever the metadata (1); with no explicit id, a
metadata object with a truthy `templateId` resolves to exactly that value
(2); with neither explicit id nor metadata path, resolution raises a
`RuntimeError` rather than falling back (3). The same policy holds for
the payload path: explicit wins (4), metadata `examplePayloadPath` is
used only when the explicit value is absent (5), absence of both is an
error (6). -/
theorem c2_resolution_policy :
    (∀ (t : String) (mp : Option String) (fs : String → FileContent), ¬ t.isEmpty →
      resolve_template_id (some t) mp fs = .ok (.str t, mp))
    ∧ (∀ (p : String) (fs : String → FileContent) (kvs : List (String × Json)) (v : Json),
        fs p = .content (.obj kvs) → lookupKey kvs "templateId" = some v → v.truthy = true →
        resolve_template_id none (some p) fs = .ok (v, some p))
    ∧ (∀ fs : String → FileContent, ∃ msg, resolve_template_id none none fs
        = .error (.runtimeError msg))
    ∧ (∀ (pp : String) (mp : Option String) (fs : String → FileContent), ¬ pp.isEmpty →
      resolve_payload_path (some pp) mp fs = .ok pp)
    ∧ (∀ (p s : String) (fs : String → FileContent) (kvs : List (String × Json)),
        fs p = .content (.obj kvs) → lookupKey kvs "examplePayloadPath" = some (.str s) →
        ¬ s.isEmpty → resolve_payload_path none (some p) fs = .ok s)
    ∧ (∀ fs : String → FileContent, ∃ msg, resolve_payload_path none none fs
        = .error (.runtimeError msg)) := by
  refine ⟨?_, ?_, ?_, ?_, ?_, ?_⟩
  · intro t mp fs ht
    rw [resolve_template_id.eq_def, if_pos (by simp [strTruthy, ht])]
    rfl
  · intro p fs kvs v hfs hlk htr
    rw [resolve_template_id, if_neg (by simp [strTruthy])]
    simp only [hfs, hlk]
    rw [if_pos htr]
  · intro fs
    exact ⟨_, by rw [resolve_template_id, if_neg (by simp [strTruthy])]⟩
  · intro pp mp fs hpp
    rw [resolve_payload_path.eq_def, if_pos (by simp [strTruthy, hpp])]
    rfl
  · intro p s fs kvs hfs hlk hs
    rw [resolve_payload_path, if_neg (by simp [strTruthy])]
    simp only [hfs, hlk]
    rw [if_neg hs]
  · intro fs
    exact ⟨_, by rw [resolve_payload_path, if_neg (by simp [strTruthy])]⟩

/-- Witness for C2 at concrete metadata and explicit values. -/
theorem c2_resolution_policy_witness :
    resolve_template_id (some "tid") (some "m.json") (fun _ => FileContent.missing)
      = .ok (.str "tid", some "m.json")
    ∧ resolve_template_id none (some "m.json")
        (fun _ => .content (.obj [("templateId", .str "cast123")]))
      = .ok (.str "cast123", some "m.json")
    ∧ (∃ msg, resolve_template_id none none (fun _ => FileContent.missing)
        = .error (.runtimeError msg))
    ∧ resolve_payload_path (some "p.json") none (fun _ => FileContent.missing) = .ok "p.json"
    ∧ resolve_payload_path none (some "m.json")
        (fun _ => .content (.obj [("examplePayloadPath", .str "ex.json")]))
      = .ok "ex.json"
    ∧ (∃ msg, resolve_payload_path none none (fun _ => FileContent.missing)
        = .error (.runtimeError msg)) :=
  ⟨c2_resolution_policy.1 "tid" (some "m.json") _ (by decide),
   c2_resolution_policy.2.1 "m.json" _ _ _ rfl rfl (by decide),
   c2_resolution_policy.2.2.1 _,
   c2_resolution_policy.2.2.2.1 "p.json" none _ (by decide),
   c2_resolution_policy.2.2.2.2.1 "m.json" "ex.json" _ _ rfl rfl (by decide),
   c2_resolution_policy.2.2.2.2.2 _⟩

/-- C10: a falsy metadata value is treated exactly like a missing key.
A metadata object whose `templateId` is falsy makes `resolve_template_id`
raise the `templateId missing` error instead of returning the value; a
falsy `examplePayloadPath` makes `resolve_payload_path` raise the
`examplePayloadPath missing` error instead of returning a path. -/
theorem c10_falsy_metadata_values :
    (∀ (p : String) (fs : String → FileContent) (kvs : List (String × Json)) (v : Json),
      fs p = .content (.obj kvs) → lookupKey kvs "templateId" = some v → v.truthy = false →
      resolve_template_id none (some p) fs
        = .error (.runtimeError ("templateId missing in metadata: " ++ p)))
    ∧ (∀ (p : String) (fs : String → FileContent) (kvs : List (String × Json)) (v : Json),
      fs p = .content (.obj kvs) → lookupKey kvs "examplePayloadPath" = some v →
      v.truthy = false →
      resolve_payload_path none (some p) fs
        = .error (.runtimeError
            "examplePayloadPath missing in metadata; provide --payload explicitly")) := by
  constructor
  · intro p fs kvs v hfs hlk htr
    rw [resolve_template_id, if_neg (by simp [strTruthy])]
    simp only [hfs, hlk]
    rw [if_neg (by simp [htr])]
  · intro p fs kvs v hfs hlk htr
    rw [resolve_payload_path, if_neg (by simp [strTruthy])]
    simp only [hfs, hlk]
    cases v with
    | str s =>
      cases hse : s.isEmpty with
      | true => simp [hse]
      | false => simp [Json.truthy, hse] at htr
    | null => rfl
    | bool b =>
      simp only [Json.truthy] at htr
      simp [Json.truthy, htr]
    | num n =>
      simp only [Json.truthy] at htr
      simp [Json.truthy, htr]
    | arr xs =>
      simp only [Json.truthy] at htr
      simp [Json.truthy, htr]
    | obj kvs' =>
      simp only [Json.truthy] at htr
      simp [Json.truthy, htr]

/-- Witness for C10: an empty-string `templateId` and a `false`
`examplePayloadPath` are both rejected as missing. -/
theorem c10_falsy_metadata_values_witness :
    resolve_template_id none (some "m.json")
        (fun _ => .content (.obj [("templateId", .str "")]))
      = .error (.runtimeError ("templateId missing in metadata: " ++ "m.json"))
    ∧ resolve_payload_path none (some "m.json")
        (fun _ => .content (.obj [("examplePayloadPath", .bool false)]))
      = .error (.runtimeError
          "examplePayloadPath missing in metadata; provide --payload explicitly") :=
  ⟨c10_falsy_metadata_values.1 "m.json" _ _ _ rfl rfl (by decide),
   c10_falsy_metadata_values.2 "m.json" _ _ _ rfl rfl (by decide)⟩

/-- C3: flag injection before submission. When `--no-interactive` is not
given, the submitted payload maps `useInteractiveFields` to `true` and
`defaultReadOnly` to the `--default-read-only` toggle, overwriting any
existing keys of those names, and every other key keeps its value; when
`--no-interactive` is given, the payload is unchanged. The claim's
concrete example is checked through a full filler run: payload
`data ↦ (name ↦ Jane)` with the toggle off is submitted as that object
followed by `useInteractiveFields = true`, `defaultReadOnly = false`. -/
theorem c3_flag_injection :
    (∀ (dro : Bool) (payload : List (String × Json)),
      lookupKey (inject_flags false dro payload) "useInteractiveFields" = some (.bool true)
      ∧ lookupKey (inject_flags false dro payload) "defaultReadOnly" = some (.bool dro))
    ∧ (∀ (dro : Bool) (payload : List (String × Json)) (k : String),
        k ≠ "useInteractiveFields" → k ≠ "defaultReadOnly" →
        lookupKey (inject_flags false dro payload) k = lookupKey payload k)
    ∧ (∀ (dro : Bool) (payload : List (String × Json)),
        inject_flags true dro payload = payload)
    ∧ (fillerMain { template_id := some "abc123", payload := some "p.json" }
        { anvil_api_key := some "key",
          fs := fun p => if p = "p.json"
            then .content (.obj [("data", .obj [("name", .str "Jane")])])
            else .missing,
          http := .ok [37, 80, 68, 70] }).submittedPayload
      = some (.obj [("data", .obj [("name", .str "Jane")]),
          ("useInteractiveFields", .bool true), ("defaultReadOnly", .bool false)]) := by
  refine ⟨?_, ?_, ?_, ?_⟩
  · intro dro payload
    constructor
    · rw [inject_flags, if_neg (by simp)]
      rw [lookupKey_setKey_ne _ _ _ _ (by decide)]
      exact lookupKey_setKey_self _ _ _
    · rw [inject_flags, if_neg (by simp)]
      exact lookupKey_setKey_self _ _ _
  · intro dro payload k h1 h2
    rw [inject_flags, if_neg (by simp)]
    rw [lookupKey_setKey_ne _ _ _ _ h2, lookupKey_setKey_ne _ _ _ _ h1]
  · intro dro payload
    rw [inject_flags, if_pos rfl]
  · rfl

/-- C9: a payload file that parses as JSON but is not an object makes the
filler fail with `Payload JSON must be an object` and exit code 1 before
any network request, whenever the run reaches the payload load (key set,
identifier and payload path resolved, payload file present). -/
theorem c9_payload_not_object (args : FillArgs) (env : FillEnv)
    (hkey : strTruthy env.anvil_api_key = true)
    (tid : Json) (mp : Option String)
    (hresolve : resolve_template_id args.template_id
      (if strTruthy args.template_metadata then args.template_metadata else none) env.fs
      = .ok (tid, mp))
    (pp : String)
    (hpp : resolve_payload_path
      (if strTruthy args.payload then args.payload else none) mp env.fs = .ok pp)
    (j : Json) (hj : env.fs pp = .content j) (hobj : ∀ kvs, j ≠ .obj kvs) :
    fillerMain args env = errOutcome (.runtimeError "Payload JSON must be an object") 0 none
    ∧ (fillerMain args env).exitCode = 1
    ∧ (fillerMain args env).requestsMade = 0
    ∧ (fillerMain args env).filesWritten = []
    ∧ (fillerMain args env).stderrLines = ["Payload JSON must be an object"] := by
  have hmain : fillerMain args env
      = errOutcome (.runtimeError "Payload JSON must be an object") 0 none := by
    rw [fillerMain.eq_def]
    rw [hkey]
    simp only [Bool.not_true, Bool.false_eq_true, if_false]
    simp only [hresolve, hpp, hj]
  exact ⟨hmain, by rw [hmain]; rfl, by rw [hmain]; rfl, by rw [hmain]; rfl, by rw [hmain]; rfl⟩

/-- Witness for C9: explicit id, payload file holding a JSON array. -/
theorem c9_payload_not_object_witness :
    fillerMain { template_id := some "abc123", payload := some "p.json" }
        { anvil_api_key := some "key", fs := fun _ => .content (.arr []), http := .ok [] }
      = errOutcome (.runtimeError "Payload JSON must be an object") 0 none
    ∧ (fillerMain { template_id := some "abc123", payload := some "p.json" }
        { anvil_api_key := some "key", fs := fun _ => .content (.arr []),
          http := .ok [] }).exitCode = 1
    ∧ (fillerMain { template_id := some "abc123", payload := some "p.json" }
        { anvil_api_key := some "key", fs := fun _ => .content (.arr []),
          http := .ok [] }).requestsMade = 0
    ∧ (fillerMain { template_id := some "abc123", payload := some "p.json" }
        { anvil_api_key := some "key", fs := fun _ => .content (.arr []),
          http := .ok [] }).filesWritten = []
    ∧ (fillerMain { template_id := some "abc123", payload := some "p.json" }
        { anvil_api_key := some "key", fs := fun _ => .content (.arr []),
          http := .ok [] }).stderrLines = ["Payload JSON must be an object"] :=
  c9_payload_not_object _ _ rfl (.str "abc123") none rfl "p.json" rfl (.arr []) rfl
    (fun _kvs h => Json.noConfusion h)

/-- ASCII letters and digits, the class `[a-zA-Z0-9]` of `slugify`. -/
def isAsciiAlnum (c : Char) : Bool :=
  (48 ≤ c.toNat && c.toNat ≤ 57) || (65 ≤ c.toNat && c.toNat ≤ 90)
    || (97 ≤ c.toNat && c.toNat ≤ 122)

/-- Drop a run of non-alphanumeric characters. -/
def dropNonAlnum : List Char → List Char
  | [] => []
  | c :: rest => if isAsciiAlnum c then c :: rest else dropNonAlnum rest

theorem dropNonAlnum_length : ∀ l : List Char, (dropNonAlnum l).length ≤ l.length := by
  intro l
  induction l with
  | nil => simp [dropNonAlnum]
  | cons c rest ih =>
    rw [dropNonAlnum]
    split
    · simp
    · simp only [List.length_cons]
      omega

/-- `re.sub(r"[^a-zA-Z0-9]+", "-", _)`: each maximal run of
non-alphanumerics becomes a single dash. -/
def subRuns : List Char → List Char
  | [] => []
  | c :: rest =>
    if isAsciiAlnum c then c :: subRuns rest
    else '-' :: subRuns (dropNonAlnum rest)
termination_by l => l.length
decreasing_by
  · simp
  · have := dropNonAlnum_length rest
    simp
    omega

/-- Python `str.strip("-")`. -/
def stripDashes (l : List Char) : List Char :=
  ((l.dropWhile (· = '-')).reverse.dropWhile (· = '-')).reverse

/-- `slugify` of `create_anvil_template.py`. -/
def slugify (value : String) : String :=
  let slug := String.mk ((stripDashes (subRuns value.data)).map Char.toLower)
  if slug.isEmpty then "template" else slug

/-- `Path(p).stem`: final path component without its last suffix (the
suffix needs a dot that is neither leading nor trailing). -/
def pathStem (p : String) : String :=
  let base := (p.splitOn "/").getLastD ""
  let cs := base.data
  let dots := (List.range cs.length).filter (fun k => cs.getD k ' ' = '.')
  match dots.getLast? with
  | some k => if 0 < k && k < cs.length - 1 then String.mk (cs.take k) else base
  | none => base

/-- Outcome of one request to the GraphQL endpoint, as `request_json`
observes it: a 2xx JSON body, a non-2xx status with body text, a
transport error, or a 2xx body that is not JSON. -/
inductive NetResp where
  | httpJson (j : Json)
  | httpBad (code : Nat) (detail : String)
  | netErr (msg : String)
  | nonJson (raw : String)

/-- `request_json` of `create_anvil_template.py`: non-2xx becomes
`HTTP <code>: <decoded body>`, transport failures `Network error: <m>`,
and a body that fails to parse `Non-JSON response: <first 1000 chars>`. -/
def request_json (resp : NetResp) : Except String Json :=
  match resp with
  | .httpJson j => .ok j
  | .httpBad code detail => .error ("HTTP " ++ toString code ++ ": " ++ detail)
  | .netErr m => .error ("Network error: " ++ m)
  | .nonJson raw => .error ("Non-JSON response: " ++ raw.take 1000)

/-- The response handling shared by `graphql_json` and `graphql_upload`:
`request_json` failures become `RuntimeError`s, a truthy `errors` member
raises `GraphQL errors: <json>`, and the `data` member is returned with
default `{}`; a non-dict JSON response crashes in `.get`. -/
def graphql_step (resp : NetResp) : Except PyErr Json :=
  match request_json resp with
  | .error m => .error (.runtimeError m)
  | .ok out =>
    match out with
    | .obj kvs =>
      match lookupKey kvs "errors" with
      | some e =>
        if e.truthy then .error (.runtimeError ("GraphQL errors: " ++ dumps false e))
        else .ok ((lookupKey kvs "data").getD (Json.obj []))
      | none => .ok ((lookupKey kvs "data").getD (Json.obj []))
    | _ => .error .crash

/-- Python `d[k]` on a JSON value: missing key or non-dict crashes. -/
def pyIndex (j : Json) (k : String) : Except PyErr Json :=
  match j with
  | .obj kvs =>
    match lookupKey kvs k with
    | some v => .ok v
    | none => .error .crash
  | _ => .error .crash

/-- Python `d.get(k)` where a non-dict crashes (`AttributeError`). -/
def pyGet (j : Json) (k : String) : Except PyErr (Option Json) :=
  match j with
  | .obj kvs => .ok (lookupKey kvs k)
  | _ => .error .crash

/-- Command-line arguments of the creator (argparse defaults included). -/
structure CreateArgs where
  pdf : String
  title : Option String := none
  output_dir : String := "output/anvil_templates"
  no_publish : Bool := false
  detect_fields : Bool := true
  advanced_detect_fields : Bool := true
  detect_boxes_advanced : Bool := true
  alias_id : List String := []

/-- Environment of a creator run: the key, the source PDF (bytes when it
exists), and the behaviour of the three requests in order. -/
structure CreateEnv where
  anvil_api_key : Option String
  pdfFile : Option (List Nat)
  uploadResp : NetResp
  publishResp : NetResp
  castResp : NetResp

/-- The `try` block of the creator's `main`: the upload (`createCast`),
the optional publish step (which first reads `cast["eid"]`), and the
always-run final `cast` query; returns the final cast record. -/
def creatorTry (args : CreateArgs) (env : CreateEnv) : Except PyErr Json :=
  match graphql_step env.uploadResp with
  | .error e => .error e
  | .ok data =>
    match pyIndex data "createCast" with
    | .error e => .error e
    | .ok cast0 =>
      let publishStep : Except PyErr Json :=
        if args.no_publish then .ok cast0
        else
          match pyIndex cast0 "eid" with
          | .error e => .error e
          | .ok _ =>
            match graphql_step env.publishResp with
            | .error e => .error e
            | .ok data2 => pyIndex data2 "publishCast"
      match publishStep with
      | .error e => .error e
      | .ok cast =>
        match pyIndex cast "eid" with
        | .error e => .error e
        | .ok _ =>
          match graphql_step env.castResp with
          | .error e => .error e
          | .ok data3 => pyIndex data3 "cast"

/-- The example-payload derivation of the creator's `main`: the returned
example data (after `or {}`) is used verbatim when it is a dict holding a
`data` key; otherwise it is wrapped under default `title`, `fontSize`
(10) and `textColor` (`#333333`) fields with `data` holding the example
data when it is a dict and `{}` otherwise. -/
def derive_example_payload (cast : Json) (title : String) : Json :=
  let example_data := pyOr (cast.get "exampleData") (Json.obj [])
  match example_data with
  | .obj m =>
    if (lookupKey m "data").isSome then .obj m
    else
      .obj [("title", pyOr (cast.get "title") (.str title)),
            ("fontSize", .num 10), ("textColor", .str "#333333"),
            ("data", .obj m)]
  | _ =>
      .obj [("title", pyOr (cast.get "title") (.str title)),
            ("fontSize", .num 10), ("textColor", .str "#333333"),
            ("data", .obj [])]

/-- The detected-field-count derivation of the creator's `main`:
`fieldInfo or {}`, its `fields` member when it is a dict, and the list
length when that member is a list — `none` otherwise. -/
def detected_field_count (cast : Json) : Option Nat :=
  let field_info := pyOr (cast.get "fieldInfo") (Json.obj [])
  let fields : Option Json :=
    match field_info with
    | .obj m => lookupKey m "fields"
    | _ => none
  match fields with
  | some (.arr xs) => some xs.length
  | _ => none

/-- Python `str(x)` for an optional value (a missing key prints `None`). -/
def pyShow (o : Option Json) : String :=
  match o with
  | some v => jsonToDisplay v
  | none => "None"

/-- The slug source is fed to `re.sub`, which raises `TypeError` on a
non-string. -/
def asPyStr (j : Json) : Except PyErr String :=
  match j with
  | .str s => .ok s
  | _ => .error .crash

/-- The post-`try` tail of the creator's `main`: slug source (`name` or
`title` or the default title; a truthy non-string crashes in `re.sub`),
file paths from slug and id, payload and metadata derivation. -/
def creatorFinish (args : CreateArgs) (title : String) (cast : Json) :
    Except PyErr ((String × Json) × (String × Json) × Option Nat × Json) :=
  match pyGet cast "name" with
  | .error e => .error e
  | .ok nv =>
  match pyGet cast "title" with
  | .error e => .error e
  | .ok tv =>
  match asPyStr (pyOr nv (pyOr tv (.str title))) with
  | .error e => .error e
  | .ok slugStr =>
  match pyIndex cast "eid" with
  | .error e => .error e
  | .ok eid =>
  let safe_name := slugify slugStr
  let metadata_path := args.output_dir ++ "/" ++ safe_name ++ "_" ++ jsonToDisplay eid
    ++ ".template.json"
  let example_path := args.output_dir ++ "/" ++ safe_name ++ "_" ++ jsonToDisplay eid
    ++ ".example-payload.json"
  let payload := derive_example_payload cast title
  let count := detected_field_count cast
  let metadata := Json.obj [
    ("templateId", eid),
    ("templateName", (cast.get "name").getD .null),
    ("templateTitle", (cast.get "title").getD .null),
    ("hasBeenPublished", (cast.get "hasBeenPublished").getD .null),
    ("publishedNumber", (cast.get "publishedNumber").getD .null),
    ("latestDraftVersionNumber", (cast.get "latestDraftVersionNumber").getD .null),
    ("sourcePdfPath", .str args.pdf),
    ("fieldInfo", pyOr (cast.get "fieldInfo") (Json.obj [])),
    ("detectedFieldCount", match count with | some n => .num n | none => .null),
    ("detectors", Json.obj [
      ("detectFields", .bool args.detect_fields),
      ("detectBoxesAdvanced", .bool args.detect_boxes_advanced),
      ("advancedDetectFields", .bool args.advanced_detect_fields),
      ("aliasIds", match args.alias_id with
        | [] => Json.null
        | xs => Json.arr (xs.map Json.str))]),
    ("examplePayloadPath", .str example_path)]
  .ok ((metadata_path, metadata), (example_path, payload), count, eid)

/-- The zero-fields warning line of the creator. -/
def zeroFieldsWarning : String :=
  "Warning: no fields detected. For scanned/non-fillable PDFs keep --detect-boxes-advanced enabled."

/-- `main` of `create_anvil_template.py` over an abstract environment:
missing `ANVIL_API_KEY` exits 2, a missing source PDF exits 2, every
`RuntimeError` from the request chain exits 1 with the message on
stderr, an uncaught exception aborts, and only a fully successful run
writes the metadata and example-payload documents (request counting is
modelled for the filler only and reads 0 here). -/
def creatorMain (args : CreateArgs) (env : CreateEnv) : RunOutcome :=
  if !(strTruthy env.anvil_api_key) then
    { exitCode := 2, crashed := false,
      stderrLines := ["Missing ANVIL_API_KEY environment variable"], stdoutLines := [],
      filesWritten := [], jsonWritten := [], requestsMade := 0, submittedPayload := none }
  else
    match env.pdfFile with
    | none =>
      { exitCode := 2, crashed := false, stderrLines := ["PDF not found: " ++ args.pdf],
        stdoutLines := [], filesWritten := [], jsonWritten := [], requestsMade := 0,
        submittedPayload := none }
    | some _pdf_bytes =>
      let title := pyOrStr args.title (pathStem args.pdf)
      match creatorTry args env with
      | .error e => errOutcome e 0 none
      | .ok cast =>
        match creatorFinish args title cast with
        | .error _ =>
          { exitCode := 1, crashed := true, stderrLines := [], stdoutLines := [],
            filesWritten := [], jsonWritten := [], requestsMade := 0,
            submittedPayload := none }
        | .ok ((metadata_path, metadata), (example_path, payload), count, eid) =>
          { exitCode := 0, crashed := false,
            stderrLines := if count = some 0 then [zeroFieldsWarning] else [],
            stdoutLines := ["Template created: " ++ jsonToDisplay eid,
                "Template name: " ++ pyShow (cast.get "name"),
                "Template title: " ++ pyShow (cast.get "title")]
              ++ (match count with
                | some n => ["Detected fields: " ++ toString n]
                | none => [])
              ++ ["Metadata file: " ++ metadata_path,
                "Example payload file: " ++ example_path],
            filesWritten := [],
            jsonWritten := [(metadata_path, metadata), (example_path, payload)],
            requestsMade := 0, submittedPayload := none }

/-- A filler invocation with no arguments at all. -/
def c4ArgsNone : FillArgs := {}

/-- A filler invocation naming only a metadata file that does not exist. -/
def c4ArgsMeta : FillArgs := { template_metadata := some "m.json" }

/-- A filler environment with the key set, an empty file system and a
successful fill endpoint. -/
def c4Env : FillEnv :=
  { anvil_api_key := some "key", fs := fun _ => FileContent.missing, http := .ok [] }

/-- A filler invocation with only an explicit template id: no payload and
no metadata. -/
def c4ArgsTidOnly : FillArgs := { template_id := some "abc" }

/-- Filler invocation with an explicit id and payload. -/
def c4ArgsTid : FillArgs := { template_id := some "abc", payload := some "p.json" }

/-- C4 counterexample: the claimed Configuration Errors of the filler do
not exit 2. With neither `--template-id` nor `--template-metadata` the
filler exits 1 (the `RuntimeError` is caught by the handler that returns
1); likewise for a missing metadata file, for `--template-id` given
without `--payload` and without metadata, and for a missing payload
file. -/
theorem c4_filler_config_error_exit1 :
    (fillerMain c4ArgsNone c4Env).exitCode = 1
    ∧ (fillerMain c4ArgsNone c4Env).exitCode ≠ 2
    ∧ (fillerMain c4ArgsNone c4Env).stderrLines
      = ["Provide either --template-id or --template-metadata"]
    ∧ (fillerMain c4ArgsMeta c4Env).exitCode = 1
    ∧ (fillerMain c4ArgsMeta c4Env).stderrLines
      = ["Template metadata not found: m.json"]
    ∧ (fillerMain c4ArgsTidOnly c4Env).exitCode = 1
    ∧ (fillerMain c4ArgsTidOnly c4Env).exitCode ≠ 2
    ∧ (fillerMain c4ArgsTidOnly c4Env).stderrLines
      = ["Provide --payload when using --template-id directly"]
    ∧ (fillerMain c4ArgsTid c4Env).exitCode = 1
    ∧ (fillerMain c4ArgsTid c4Env).exitCode ≠ 2
    ∧ (fillerMain c4ArgsTid c4Env).stderrLines
      = ["Payload file not found: p.json"] :=
  ⟨rfl, by decide, rfl, rfl, rfl, rfl, by decide, rfl, rfl, by decide, rfl⟩

/-- C4 (amended): the exit-code taxonomy as the code implements it. The
missing `ANVIL_API_KEY` variable exits 2 in both scripts, and the
creator's missing source PDF exits 2; but the filler's missing required
argument combinations (neither `--template-id` nor `--template-metadata`;
`--template-id` without `--payload` and without metadata), its missing
metadata file and its missing payload file are raised as `RuntimeError`s
and exit 1 with a message on standard error, like every Remote/API
error: the filler's non-2xx HTTP response, and the creator's non-2xx
HTTP response, GraphQL `errors` member and malformed JSON response all
exit 1 with a message on standard error. -/
theorem c4_exit_code_taxonomy :
    (∀ (args : FillArgs) (env : FillEnv), strTruthy env.anvil_api_key = false →
      (fillerMain args env).exitCode = 2
      ∧ (fillerMain args env).stderrLines = ["Missing ANVIL_API_KEY environment variable"])
    ∧ (∀ (args : CreateArgs) (env : CreateEnv), strTruthy env.anvil_api_key = false →
      (creatorMain args env).exitCode = 2
      ∧ (creatorMain args env).stderrLines = ["Missing ANVIL_API_KEY environment variable"])
    ∧ (∀ (args : CreateArgs) (env : CreateEnv), strTruthy env.anvil_api_key = true →
      env.pdfFile = none →
      (creatorMain args env).exitCode = 2
      ∧ (creatorMain args env).stderrLines = ["PDF not found: " ++ args.pdf])
    ∧ (∀ (args : FillArgs) (env : FillEnv), strTruthy env.anvil_api_key = true →
      strTruthy args.template_id = false → strTruthy args.template_metadata = false →
      (fillerMain args env).exitCode = 1
      ∧ (fillerMain args env).stderrLines
        = ["Provide either --template-id or --template-metadata"])
    ∧ (∀ (args : FillArgs) (env : FillEnv) (p : String), strTruthy env.anvil_api_key = true →
      strTruthy args.template_id = false → args.template_metadata = some p →
      ¬ p.isEmpty → env.fs p = .missing →
      (fillerMain args env).exitCode = 1
      ∧ (fillerMain args env).stderrLines = ["Template metadata not found: " ++ p])
    ∧ (∀ (args : FillArgs) (env : FillEnv), strTruthy env.anvil_api_key = true →
      strTruthy args.template_id = true → strTruthy args.template_metadata = false →
      strTruthy args.payload = false →
      (fillerMain args env).exitCode = 1
      ∧ (fillerMain args env).stderrLines
        = ["Provide --payload when using --template-id directly"])
    ∧ (∀ (args : FillArgs) (env : FillEnv) (tid : Json) (mp : Option String) (pp : String),
      strTruthy env.anvil_api_key = true →
      resolve_template_id args.template_id
        (if strTruthy args.template_metadata then args.template_metadata else none) env.fs
        = .ok (tid, mp) →
      resolve_payload_path (if strTruthy args.payload then args.payload else none) mp env.fs
        = .ok pp →
      env.fs pp = .missing →
      (fillerMain args env).exitCode = 1
      ∧ (fillerMain args env).stderrLines = ["Payload file not found: " ++ pp])
    ∧ (∀ (args : FillArgs) (env : FillEnv) (code : Nat) (detail : String) (tid : Json)
        (mp : Option String) (pp : String) (kvs : List (String × Json)),
      strTruthy env.anvil_api_key = true →
      resolve_template_id args.template_id
        (if strTruthy args.template_metadata then args.template_metadata else none) env.fs
        = .ok (tid, mp) →
      resolve_payload_path (if strTruthy args.payload then args.payload else none) mp env.fs
        = .ok pp →
      env.fs pp = .content (.obj kvs) →
      env.http = .httpError code detail →
      (fillerMain args env).exitCode = 1 ∧ (fillerMain args env).stderrLines ≠ [])
    ∧ (∀ (args : CreateArgs) (env : CreateEnv) (code : Nat) (detail : String),
      strTruthy env.anvil_api_key = true → env.pdfFile ≠ none →
      env.uploadResp = .httpBad code detail →
      (creatorMain args env).exitCode = 1 ∧ (creatorMain args env).stderrLines ≠ [])
    ∧ (∀ (args : CreateArgs) (env : CreateEnv) (kvs : List (String × Json)) (e : Json),
      strTruthy env.anvil_api_key = true → env.pdfFile ≠ none →
      env.uploadResp = .httpJson (.obj kvs) → lookupKey kvs "errors" = some e →
      e.truthy = true →
      (creatorMain args env).exitCode = 1 ∧ (creatorMain args env).stderrLines ≠ [])
    ∧ (∀ (args : CreateArgs) (env : CreateEnv) (raw : String),
      strTruthy env.anvil_api_key = true → env.pdfFile ≠ none →
      env.uploadResp = .nonJson raw →
      (creatorMain args env).exitCode = 1 ∧ (creatorMain args env).stderrLines ≠ []) := by
  refine ⟨?_, ?_, ?_, ?_, ?_, ?_, ?_, ?_, ?_, ?_, ?_⟩
  · intro args env hkey
    have hmain : fillerMain args env
        = { exitCode := 2, crashed := false,
            stderrLines := ["Missing ANVIL_API_KEY environment variable"], stdoutLines := [],
            filesWritten := [], jsonWritten := [], requestsMade := 0,
            submittedPayload := none } := by
      rw [fillerMain.eq_def, hkey]
      simp
    exact ⟨by rw [hmain], by rw [hmain]⟩
  · intro args env hkey
    have hmain : creatorMain args env
        = { exitCode := 2, crashed := false,
            stderrLines := ["Missing ANVIL_API_KEY environment variable"], stdoutLines := [],
            filesWritten := [], jsonWritten := [], requestsMade := 0,
            submittedPayload := none } := by
      rw [creatorMain.eq_def, hkey]
      simp
    exact ⟨by rw [hmain], by rw [hmain]⟩
  · intro args env hkey hpdf
    have hmain : creatorMain args env
        = { exitCode := 2, crashed := false, stderrLines := ["PDF not found: " ++ args.pdf],
            stdoutLines := [], filesWritten := [], jsonWritten := [], requestsMade := 0,
            submittedPayload := none } := by
      rw [creatorMain.eq_def, hkey]
      simp only [Bool.not_true, Bool.false_eq_true, if_false]
      rw [hpdf]
    exact ⟨by rw [hmain], by rw [hmain]⟩
  · intro args env hkey htid hmeta
    have hres : resolve_template_id args.template_id none env.fs
        = .error (.runtimeError "Provide either --template-id or --template-metadata") := by
      rw [resolve_template_id, if_neg (by simp [htid])]
    have hmain : fillerMain args env
        = errOutcome (.runtimeError "Provide either --template-id or --template-metadata")
            0 none := by
      rw [fillerMain.eq_def, hkey]
      simp [hmeta, hres]
    exact ⟨by rw [hmain]; rfl, by rw [hmain]; rfl⟩
  · intro args env p hkey htid hm hp hfs
    have hres : resolve_template_id args.template_id (some p) env.fs
        = .error (.runtimeError ("Template metadata not found: " ++ p)) := by
      rw [resolve_template_id, if_neg (by simp [htid]), hfs]
    have hmain : fillerMain args env
        = errOutcome (.runtimeError ("Template metadata not found: " ++ p)) 0 none := by
      rw [fillerMain.eq_def, hkey]
      simp [hm, strTruthy, hp, hres]
    exact ⟨by rw [hmain]; rfl, by rw [hmain]; rfl⟩
  · intro args env hkey htid hmeta hpay
    have hres : resolve_template_id args.template_id none env.fs
        = .ok (.str (args.template_id.getD ""), none) := by
      rw [resolve_template_id, if_pos htid]
    have hpath : resolve_payload_path none none env.fs
        = .error (.runtimeError "Provide --payload when using --template-id directly") := by
      rw [resolve_payload_path, if_neg (by simp [strTruthy])]
    have hmain : fillerMain args env
        = errOutcome (.runtimeError "Provide --payload when using --template-id directly")
            0 none := by
      rw [fillerMain.eq_def, hkey]
      simp [hmeta, hpay, hres, hpath]
    exact ⟨by rw [hmain]; rfl, by rw [hmain]; rfl⟩
  · intro args env tid mp pp hkey hresolve hpp hmiss
    have hmain : fillerMain args env
        = errOutcome (.runtimeError ("Payload file not found: " ++ pp)) 0 none := by
      rw [fillerMain.eq_def, hkey]
      simp only [Bool.not_true, Bool.false_eq_true, if_false]
      simp only [hresolve, hpp, hmiss]
    exact ⟨by rw [hmain]; rfl, by rw [hmain]; rfl⟩
  · intro args env code detail tid mp pp kvs hkey hresolve hpp hj hhttp
    have hmain : fillerMain args env
        = errOutcome (.runtimeError ("Anvil API error " ++ toString code ++ ": " ++ detail)) 1
            (some (.obj (inject_flags args.no_interactive args.default_read_only kvs))) := by
      rw [fillerMain.eq_def, hkey]
      simp only [Bool.not_true, Bool.false_eq_true, if_false]
      simp only [hresolve, hpp, hj, hhttp]
      rfl
    exact ⟨by rw [hmain]; rfl, by rw [hmain]; simp [errOutcome]⟩
  · intro args env code detail hkey hpdf hup
    obtain ⟨b, hb⟩ : ∃ b, env.pdfFile = some b := by
      cases hp : env.pdfFile
      · exact absurd hp hpdf
      · exact ⟨_, rfl⟩
    have hstep : graphql_step env.uploadResp
        = .error (.runtimeError ("HTTP " ++ toString code ++ ": " ++ detail)) := by
      rw [hup]
      rfl
    have hmain : creatorMain args env
        = errOutcome (.runtimeError ("HTTP " ++ toString code ++ ": " ++ detail)) 0 none := by
      rw [creatorMain.eq_def, hkey]
      simp only [Bool.not_true, Bool.false_eq_true, if_false]
      rw [hb]
      simp [creatorTry, hstep]
    exact ⟨by rw [hmain]; rfl, by rw [hmain]; simp [errOutcome]⟩
  · intro args env kvs e hkey hpdf hup hlk htr
    obtain ⟨b, hb⟩ : ∃ b, env.pdfFile = some b := by
      cases hp : env.pdfFile
      · exact absurd hp hpdf
      · exact ⟨_, rfl⟩
    have hstep : graphql_step env.uploadResp
        = .error (.runtimeError ("GraphQL errors: " ++ dumps false e)) := by
      rw [hup]
      simp [graphql_step, request_json, hlk, htr]
    have hmain : creatorMain args env
        = errOutcome (.runtimeError ("GraphQL errors: " ++ dumps false e)) 0 none := by
      rw [creatorMain.eq_def, hkey]
      simp only [Bool.not_true, Bool.false_eq_true, if_false]
      rw [hb]
      simp [creatorTry, hstep]
    exact ⟨by rw [hmain]; rfl, by rw [hmain]; simp [errOutcome]⟩
  · intro args env raw hkey hpdf hup
    obtain ⟨b, hb⟩ : ∃ b, env.pdfFile = some b := by
      cases hp : env.pdfFile
      · exact absurd hp hpdf
      · exact ⟨_, rfl⟩
    have hstep : graphql_step env.uploadResp
        = .error (.runtimeError ("Non-JSON response: " ++ raw.take 1000)) := by
      rw [hup]
      rfl
    have hmain : creatorMain args env
        = errOutcome (.runtimeError ("Non-JSON response: " ++ raw.take 1000)) 0 none := by
      rw [creatorMain.eq_def, hkey]
      simp only [Bool.not_true, Bool.false_eq_true, if_false]
      rw [hb]
      simp [creatorTry, hstep]
    exact ⟨by rw [hmain]; rfl, by rw [hmain]; simp [errOutcome]⟩

/-- Witness environments for the exit-code taxonomy. -/
def c4EnvCNoKey : CreateEnv :=
  { anvil_api_key := none, pdfFile := none, uploadResp := .nonJson "x",
    publishResp := .nonJson "x", castResp := .nonJson "x" }

/-- Creator environment with the key set and no source PDF. -/
def c4EnvCNoPdf : CreateEnv :=
  { anvil_api_key := some "key", pdfFile := none, uploadResp := .nonJson "x",
    publishResp := .nonJson "x", castResp := .nonJson "x" }

/-- Creator environment whose upload request gets a 500. -/
def c4EnvCHttpBad : CreateEnv :=
  { anvil_api_key := some "key", pdfFile := some [1], uploadResp := .httpBad 500 "boom",
    publishResp := .nonJson "x", castResp := .nonJson "x" }

/-- Creator environment whose upload response carries a GraphQL error. -/
def c4EnvCGqlErr : CreateEnv :=
  { anvil_api_key := some "key", pdfFile := some [1],
    uploadResp := .httpJson (.obj [("errors", .arr [.str "bad"])]),
    publishResp := .nonJson "x", castResp := .nonJson "x" }

/-- Creator environment whose upload response is not JSON. -/
def c4EnvCNonJson : CreateEnv :=
  { anvil_api_key := some "key", pdfFile := some [1], uploadResp := .nonJson "<body>",
    publishResp := .nonJson "x", castResp := .nonJson "x" }

/-- Filler environment with no key at all. -/
def c4EnvFNoKey : FillEnv :=
  { anvil_api_key := none, fs := fun _ => FileContent.missing, http := .ok [] }

/-- Filler environment whose fill request gets a 404. -/
def c4EnvFHttp : FillEnv :=
  { anvil_api_key := some "key", fs := fun _ => FileContent.content (Json.obj []),
    http := .httpError 404 "nope" }

/-- Creator invocation for the witness runs. -/
def c4ArgsC : CreateArgs := { pdf := "form.pdf" }

/-- Witness for C4 (amended): each taxonomy case at a concrete run. -/
theorem c4_exit_code_taxonomy_witness :
    ((fillerMain c4ArgsNone c4EnvFNoKey).exitCode = 2
      ∧ (fillerMain c4ArgsNone c4EnvFNoKey).stderrLines
        = ["Missing ANVIL_API_KEY environment variable"])
    ∧ ((creatorMain c4ArgsC c4EnvCNoKey).exitCode = 2
      ∧ (creatorMain c4ArgsC c4EnvCNoKey).stderrLines
        = ["Missing ANVIL_API_KEY environment variable"])
    ∧ ((creatorMain c4ArgsC c4EnvCNoPdf).exitCode = 2
      ∧ (creatorMain c4ArgsC c4EnvCNoPdf).stderrLines = ["PDF not found: " ++ c4ArgsC.pdf])
    ∧ ((fillerMain c4ArgsNone c4Env).exitCode = 1
      ∧ (fillerMain c4ArgsNone c4Env).stderrLines
        = ["Provide either --template-id or --template-metadata"])
    ∧ ((fillerMain c4ArgsMeta c4Env).exitCode = 1
      ∧ (fillerMain c4ArgsMeta c4Env).stderrLines
        = ["Template metadata not found: " ++ "m.json"])
    ∧ ((fillerMain c4ArgsTidOnly c4Env).exitCode = 1
      ∧ (fillerMain c4ArgsTidOnly c4Env).stderrLines
        = ["Provide --payload when using --template-id directly"])
    ∧ ((fillerMain c4ArgsTid c4Env).exitCode = 1
      ∧ (fillerMain c4ArgsTid c4Env).stderrLines
        = ["Payload file not found: " ++ "p.json"])
    ∧ ((fillerMain c4ArgsTid c4EnvFHttp).exitCode = 1
      ∧ (fillerMain c4ArgsTid c4EnvFHttp).stderrLines ≠ [])
    ∧ ((creatorMain c4ArgsC c4EnvCHttpBad).exitCode = 1
      ∧ (creatorMain c4ArgsC c4EnvCHttpBad).stderrLines ≠ [])
    ∧ ((creatorMain c4ArgsC c4EnvCGqlErr).exitCode = 1
      ∧ (creatorMain c4ArgsC c4EnvCGqlErr).stderrLines ≠ [])
    ∧ ((creatorMain c4ArgsC c4EnvCNonJson).exitCode = 1
      ∧ (creatorMain c4ArgsC c4EnvCNonJson).stderrLines ≠ []) :=
  ⟨c4_exit_code_taxonomy.1 _ _ rfl,
   c4_exit_code_taxonomy.2.1 _ _ rfl,
   c4_exit_code_taxonomy.2.2.1 _ _ rfl rfl,
   c4_exit_code_taxonomy.2.2.2.1 _ _ rfl rfl rfl,
   c4_exit_code_taxonomy.2.2.2.2.1 _ _ "m.json" rfl rfl rfl (by decide) rfl,
   c4_exit_code_taxonomy.2.2.2.2.2.1 _ _ rfl rfl rfl rfl,
   c4_exit_code_taxonomy.2.2.2.2.2.2.1 _ _ (.str "abc") none "p.json" rfl rfl rfl rfl,
   c4_exit_code_taxonomy.2.2.2.2.2.2.2.1 _ _ 404 "nope" (.str "abc") none "p.json" []
     rfl rfl rfl rfl rfl,
   c4_exit_code_taxonomy.2.2.2.2.2.2.2.2.1 _ _ 500 "boom" rfl (by decide) rfl,
   c4_exit_code_taxonomy.2.2.2.2.2.2.2.2.2.1 _ _ [("errors", .arr [.str "bad"])]
     (.arr [.str "bad"]) rfl (by decide) rfl rfl rfl,
   c4_exit_code_taxonomy.2.2.2.2.2.2.2.2.2.2 _ _ "<body>" rfl (by decide) rfl⟩

theorem isPrefixOf_append_self_g {α : Type} [BEq α] [LawfulBEq α] (d r : List α) :
    d.isPrefixOf (d ++ r) = true := by
  induction d with
  | nil => simp [List.isPrefixOf]
  | cons a d ih => simp [List.isPrefixOf, ih]

/-- `u` occurs as a contiguous run in a character list. -/
def containsRun (u : List Char) : List Char → Bool
  | [] => u.isEmpty
  | a :: rest => u.isPrefixOf (a :: rest) || containsRun u rest

theorem containsRun_append_mid (x u y : List Char) : containsRun u (x ++ (u ++ y)) = true := by
  induction x with
  | nil =>
    simp only [List.nil_append]
    cases u with
    | nil => cases y <;> simp [containsRun, List.isPrefixOf]
    | cons h t =>
      have hp : (h :: t).isPrefixOf ((h :: t) ++ y) = true := isPrefixOf_append_self_g _ _
      rw [List.cons_append] at hp
      rw [List.cons_append, containsRun]
      simp [hp]
  | cons a x ih =>
    rw [List.cons_append, containsRun]
    simp [ih]

theorem containsRun_of_data {u l : List Char} (x y : List Char)
    (h : l = x ++ (u ++ y)) : containsRun u l = true := by
  rw [h]
  exact containsRun_append_mid x u y

/-- C5: a non-2xx HTTP response from the fill endpoint or the GraphQL
endpoint yields a non-zero exit code and a single stderr message that
contains the decimal status code and the (best-effort decoded) response
body text. The GraphQL endpoint is covered at each of the creator's
three exchanges: the `createCast` upload, the `publishCast` mutation
(once the upload succeeded), and the final `cast` query (once the
upload succeeded and the publish step succeeded or was skipped). -/
theorem c5_http_error_reporting :
    (∀ (args : FillArgs) (env : FillEnv) (code : Nat) (detail : String) (tid : Json)
        (mp : Option String) (pp : String) (kvs : List (String × Json)),
      strTruthy env.anvil_api_key = true →
      resolve_template_id args.template_id
        (if strTruthy args.template_metadata then args.template_metadata else none) env.fs
        = .ok (tid, mp) →
      resolve_payload_path (if strTruthy args.payload then args.payload else none) mp env.fs
        = .ok pp →
      env.fs pp = .content (.obj kvs) →
      env.http = .httpError code detail →
      (fillerMain args env).exitCode ≠ 0
      ∧ ∃ m, (fillerMain args env).stderrLines = [m]
          ∧ containsRun (toString code).data m.data = true
          ∧ containsRun detail.data m.data = true)
    ∧ (∀ (args : CreateArgs) (env : CreateEnv) (code : Nat) (detail : String),
      strTruthy env.anvil_api_key = true → env.pdfFile ≠ none →
      env.uploadResp = .httpBad code detail →
      (creatorMain args env).exitCode ≠ 0
      ∧ ∃ m, (creatorMain args env).stderrLines = [m]
          ∧ containsRun (toString code).data m.data = true
          ∧ containsRun detail.data m.data = true)
    ∧ (∀ (args : CreateArgs) (env : CreateEnv) (code : Nat) (detail : String)
        (data0 cast0 eidv : Json),
      strTruthy env.anvil_api_key = true → env.pdfFile ≠ none →
      args.no_publish = false →
      graphql_step env.uploadResp = .ok data0 →
      pyIndex data0 "createCast" = .ok cast0 →
      pyIndex cast0 "eid" = .ok eidv →
      env.publishResp = .httpBad code detail →
      (creatorMain args env).exitCode ≠ 0
      ∧ ∃ m, (creatorMain args env).stderrLines = [m]
          ∧ containsRun (toString code).data m.data = true
          ∧ containsRun detail.data m.data = true)
    ∧ (∀ (args : CreateArgs) (env : CreateEnv) (code : Nat) (detail : String)
        (data0 cast0 eidv : Json),
      strTruthy env.anvil_api_key = true → env.pdfFile ≠ none →
      graphql_step env.uploadResp = .ok data0 →
      pyIndex data0 "createCast" = .ok cast0 →
      pyIndex cast0 "eid" = .ok eidv →
      (args.no_publish = true
        ∨ ∃ data2 cast1 eidv2, graphql_step env.publishResp = .ok data2
            ∧ pyIndex data2 "publishCast" = .ok cast1
            ∧ pyIndex cast1 "eid" = .ok eidv2) →
      env.castResp = .httpBad code detail →
      (creatorMain args env).exitCode ≠ 0
      ∧ ∃ m, (creatorMain args env).stderrLines = [m]
          ∧ containsRun (toString code).data m.data = true
          ∧ containsRun detail.data m.data = true) := by
  refine ⟨?_, ?_, ?_, ?_⟩
  · intro args env code detail tid mp pp kvs hkey hresolve hpp hj hhttp
    have hmain : fillerMain args env
        = errOutcome (.runtimeError ("Anvil API error " ++ toString code ++ ": " ++ detail)) 1
            (some (.obj (inject_flags args.no_interactive args.default_read_only kvs))) := by
      rw [fillerMain.eq_def, hkey]
      simp only [Bool.not_true, Bool.false_eq_true, if_false]
      simp only [hresolve, hpp, hj, hhttp]
      rfl
    refine ⟨by rw [hmain]; simp [errOutcome], ?_⟩
    refine ⟨"Anvil API error " ++ toString code ++ ": " ++ detail, by rw [hmain]; rfl, ?_, ?_⟩
    · exact containsRun_of_data "Anvil API error ".data ((": ").data ++ detail.data)
        (by simp [List.append_assoc])
    · exact containsRun_of_data
        ("Anvil API error ".data ++ ((toString code).data ++ (": ").data)) []
        (by simp [List.append_assoc])
  · intro args env code detail hkey hpdf hup
    obtain ⟨b, hb⟩ : ∃ b, env.pdfFile = some b := by
      cases hp : env.pdfFile
      · exact absurd hp hpdf
      · exact ⟨_, rfl⟩
    have hstep : graphql_step env.uploadResp
        = .error (.runtimeError ("HTTP " ++ toString code ++ ": " ++ detail)) := by
      rw [hup]
      rfl
    have hmain : creatorMain args env
        = errOutcome (.runtimeError ("HTTP " ++ toString code ++ ": " ++ detail)) 0 none := by
      rw [creatorMain.eq_def, hkey]
      simp only [Bool.not_true, Bool.false_eq_true, if_false]
      rw [hb]
      simp [creatorTry, hstep]
    refine ⟨by rw [hmain]; simp [errOutcome], ?_⟩
    refine ⟨"HTTP " ++ toString code ++ ": " ++ detail, by rw [hmain]; rfl, ?_, ?_⟩
    · exact containsRun_of_data "HTTP ".data ((": ").data ++ detail.data)
        (by simp [List.append_assoc])
    · exact containsRun_of_data ("HTTP ".data ++ ((toString code).data ++ (": ").data)) []
        (by simp [List.append_assoc])
  · intro args env code detail data0 cast0 eidv hkey hpdf hnp hup hcc heid hpub
    obtain ⟨b, hb⟩ : ∃ b, env.pdfFile = some b := by
      cases hp : env.pdfFile
      · exact absurd hp hpdf
      · exact ⟨_, rfl⟩
    have htry : creatorTry args env
        = .error (.runtimeError ("HTTP " ++ toString code ++ ": " ++ detail)) := by
      rw [creatorTry]
      simp only [hup, hcc, hnp, Bool.false_eq_true, if_false, heid, hpub]
      rfl
    have hmain : creatorMain args env
        = errOutcome (.runtimeError ("HTTP " ++ toString code ++ ": " ++ detail)) 0 none := by
      rw [creatorMain.eq_def, hkey]
      simp only [Bool.not_true, Bool.false_eq_true, if_false]
      rw [hb]
      simp [htry]
    refine ⟨by rw [hmain]; simp [errOutcome], ?_⟩
    refine ⟨"HTTP " ++ toString code ++ ": " ++ detail, by rw [hmain]; rfl, ?_, ?_⟩
    · exact containsRun_of_data "HTTP ".data ((": ").data ++ detail.data)
        (by simp [List.append_assoc])
    · exact containsRun_of_data ("HTTP ".data ++ ((toString code).data ++ (": ").data)) []
        (by simp [List.append_assoc])
  · intro args env code detail data0 cast0 eidv hkey hpdf hup hcc heid hroute hcast
    obtain ⟨b, hb⟩ : ∃ b, env.pdfFile = some b := by
      cases hp : env.pdfFile
      · exact absurd hp hpdf
      · exact ⟨_, rfl⟩
    have htry : creatorTry args env
        = .error (.runtimeError ("HTTP " ++ toString code ++ ": " ++ detail)) := by
      rw [creatorTry]
      rcases hroute with hnp | ⟨data2, cast1, eidv2, hp1, hp2, hp3⟩
      · simp only [hup, hcc, hnp, eq_self_iff_true, if_true, heid, hcast]
        rfl
      · cases hnp : args.no_publish with
        | true =>
          simp only [hup, hcc, hnp, eq_self_iff_true, if_true, heid, hcast]
          rfl
        | false =>
          simp only [hup, hcc, hnp, Bool.false_eq_true, if_false, heid, hp1, hp2, hp3, hcast]
          rfl
    have hmain : creatorMain args env
        = errOutcome (.runtimeError ("HTTP " ++ toString code ++ ": " ++ detail)) 0 none := by
      rw [creatorMain.eq_def, hkey]
      simp only [Bool.not_true, Bool.false_eq_true, if_false]
      rw [hb]
      simp [htry]
    refine ⟨by rw [hmain]; simp [errOutcome], ?_⟩
    refine ⟨"HTTP " ++ toString code ++ ": " ++ detail, by rw [hmain]; rfl, ?_, ?_⟩
    · exact containsRun_of_data "HTTP ".data ((": ").data ++ detail.data)
        (by simp [List.append_assoc])
    · exact containsRun_of_data ("HTTP ".data ++ ((toString code).data ++ (": ").data)) []
        (by simp [List.append_assoc])

/-- Creator environment whose upload succeeds with a cast record and
whose publish request gets a 502. -/
def c5EnvCPubBad : CreateEnv :=
  { anvil_api_key := some "key", pdfFile := some [1],
    uploadResp := .httpJson (.obj [("data",
      .obj [("createCast", .obj [("eid", .str "e1")])])]),
    publishResp := .httpBad 502 "pub-broke", castResp := .nonJson "x" }

/-- Creator environment whose upload and publish succeed and whose final
cast query gets a 503. -/
def c5EnvCCastBad : CreateEnv :=
  { anvil_api_key := some "key", pdfFile := some [1],
    uploadResp := .httpJson (.obj [("data",
      .obj [("createCast", .obj [("eid", .str "e1")])])]),
    publishResp := .httpJson (.obj [("data",
      .obj [("publishCast", .obj [("eid", .str "e2")])])]),
    castResp := .httpBad 503 "cast-broke" }

/-- Witness for C5: concrete non-2xx runs at the fill endpoint (404) and
at each of the creator's three GraphQL exchanges (500, 502, 503). -/
theorem c5_http_error_reporting_witness :
    ((fillerMain c4ArgsTid c4EnvFHttp).exitCode ≠ 0
      ∧ ∃ m, (fillerMain c4ArgsTid c4EnvFHttp).stderrLines = [m]
          ∧ containsRun (toString 404).data m.data = true
          ∧ containsRun "nope".data m.data = true)
    ∧ ((creatorMain c4ArgsC c4EnvCHttpBad).exitCode ≠ 0
      ∧ ∃ m, (creatorMain c4ArgsC c4EnvCHttpBad).stderrLines = [m]
          ∧ containsRun (toString 500).data m.data = true
          ∧ containsRun "boom".data m.data = true)
    ∧ ((creatorMain c4ArgsC c5EnvCPubBad).exitCode ≠ 0
      ∧ ∃ m, (creatorMain c4ArgsC c5EnvCPubBad).stderrLines = [m]
          ∧ containsRun (toString 502).data m.data = true
          ∧ containsRun "pub-broke".data m.data = true)
    ∧ ((creatorMain c4ArgsC c5EnvCCastBad).exitCode ≠ 0
      ∧ ∃ m, (creatorMain c4ArgsC c5EnvCCastBad).stderrLines = [m]
          ∧ containsRun (toString 503).data m.data = true
          ∧ containsRun "cast-broke".data m.data = true) :=
  ⟨c5_http_error_reporting.1 c4ArgsTid c4EnvFHttp 404 "nope" (.str "abc") none "p.json" []
      rfl rfl rfl rfl rfl,
   c5_http_error_reporting.2.1 c4ArgsC c4EnvCHttpBad 500 "boom" rfl (by decide) rfl,
   c5_http_error_reporting.2.2.1 c4ArgsC c5EnvCPubBad 502 "pub-broke"
     (.obj [("createCast", .obj [("eid", .str "e1")])]) (.obj [("eid", .str "e1")])
     (.str "e1") rfl (by decide) rfl rfl rfl rfl rfl,
   c5_http_error_reporting.2.2.2 c4ArgsC c5EnvCCastBad 503 "cast-broke"
     (.obj [("createCast", .obj [("eid", .str "e1")])]) (.obj [("eid", .str "e1")])
     (.str "e1") rfl (by decide) rfl rfl rfl
     (Or.inr ⟨.obj [("publishCast", .obj [("eid", .str "e2")])], .obj [("eid", .str "e2")],
       .str "e2", rfl, rfl, rfl⟩)
     rfl⟩

theorem errOutcome_noWrites (e : PyErr) (r : Nat) (s : Option Json) :
    (errOutcome e r s).filesWritten = [] ∧ (errOutcome e r s).jsonWritten = [] := by
  cases e <;> exact ⟨rfl, rfl⟩

theorem fillerMain_writes (args : FillArgs) (env : FillEnv) :
    ((fillerMain args env).exitCode = 0 ∧ (fillerMain args env).crashed = false)
    ∨ ((fillerMain args env).filesWritten = [] ∧ (fillerMain args env).jsonWritten = []) := by
  simp only [fillerMain]
  repeat' split
  all_goals
    first
      | exact Or.inl ⟨rfl, rfl⟩
      | exact Or.inr (errOutcome_noWrites _ _ _)
      | exact Or.inr ⟨rfl, rfl⟩

theorem creatorMain_writes (args : CreateArgs) (env : CreateEnv) :
    ((creatorMain args env).exitCode = 0 ∧ (creatorMain args env).crashed = false)
    ∨ ((creatorMain args env).filesWritten = [] ∧ (creatorMain args env).jsonWritten = []) := by
  simp only [creatorMain]
  repeat' split
  all_goals
    first
      | exact Or.inl ⟨rfl, rfl⟩
      | exact Or.inr (errOutcome_noWrites _ _ _)
      | exact Or.inr ⟨rfl, rfl⟩

/-- C6: any failing run aborts without writing: whenever the filler exits
non-zero or ends in an uncaught exception it has created no output file,
and whenever the creator does so it has written neither the metadata
document nor the example-payload document; files appear only after every
prior step succeeded. -/
theorem c6_no_partial_writes :
    (∀ (args : FillArgs) (env : FillEnv),
      (fillerMain args env).exitCode ≠ 0 ∨ (fillerMain args env).crashed = true →
      (fillerMain args env).filesWritten = [] ∧ (fillerMain args env).jsonWritten = [])
    ∧ (∀ (args : CreateArgs) (env : CreateEnv),
      (creatorMain args env).exitCode ≠ 0 ∨ (creatorMain args env).crashed = true →
      (creatorMain args env).filesWritten = [] ∧ (creatorMain args env).jsonWritten = []) := by
  constructor
  · intro args env h
    rcases fillerMain_writes args env with hs | hw
    · cases h with
      | inl h => exact absurd hs.1 h
      | inr h => rw [hs.2] at h; exact absurd h (by simp)
    · exact hw
  · intro args env h
    rcases creatorMain_writes args env with hs | hw
    · cases h with
      | inl h => exact absurd hs.1 h
      | inr h => rw [hs.2] at h; exact absurd h (by simp)
    · exact hw

/-- Witness for C6: a failing filler run and a failing creator run, each
with no files written. -/
theorem c6_no_partial_writes_witness :
    ((fillerMain c4ArgsNone c4Env).filesWritten = []
      ∧ (fillerMain c4ArgsNone c4Env).jsonWritten = [])
    ∧ ((creatorMain c4ArgsC c4EnvCHttpBad).filesWritten = []
      ∧ (creatorMain c4ArgsC c4EnvCHttpBad).jsonWritten = []) :=
  ⟨c6_no_partial_writes.1 c4ArgsNone c4Env (Or.inl (by decide)),
   c6_no_partial_writes.2 c4ArgsC c4EnvCHttpBad (Or.inl (by decide))⟩

/-- C7: the creator's example-payload derivation. When the cast's
`exampleData` is an object that already has a `data` key it is used
verbatim; in every other case — object without `data`, non-object value,
or absent — the derived payload is an object with the default `title`
(the cast's truthy `title` or the run title), `fontSize` 10, `textColor`
`#333333`, and a `data` field holding the returned example data when it
is an object and the empty object otherwise. -/
theorem c7_example_payload_derivation (kvs : List (String × Json)) (title : String) :
    (∀ m, lookupKey kvs "exampleData" = some (.obj m) → (lookupKey m "data").isSome →
      derive_example_payload (.obj kvs) title = .obj m)
    ∧ (∀ m, lookupKey kvs "exampleData" = some (.obj m) → lookupKey m "data" = none →
      derive_example_payload (.obj kvs) title
        = .obj [("title", pyOr (lookupKey kvs "title") (.str title)),
                ("fontSize", .num 10), ("textColor", .str "#333333"), ("data", .obj m)])
    ∧ (∀ v, lookupKey kvs "exampleData" = some v → (∀ m, v ≠ .obj m) →
      derive_example_payload (.obj kvs) title
        = .obj [("title", pyOr (lookupKey kvs "title") (.str title)),
                ("fontSize", .num 10), ("textColor", .str "#333333"), ("data", .obj [])])
    ∧ (lookupKey kvs "exampleData" = none →
      derive_example_payload (.obj kvs) title
        = .obj [("title", pyOr (lookupKey kvs "title") (.str title)),
                ("fontSize", .num 10), ("textColor", .str "#333333"), ("data", .obj [])]) := by
  refine ⟨?_, ?_, ?_, ?_⟩
  · intro m hlk hdata
    have hne : m ≠ [] := by
      intro hm
      rw [hm] at hdata
      simp [lookupKey] at hdata
    have htr : (Json.obj m).truthy = true := by
      simp [Json.truthy]
      cases m
      · exact absurd rfl hne
      · simp
    rw [derive_example_payload]
    simp only [Json.get, hlk, pyOr, htr, if_true]
    simp [hdata]
  · intro m hlk hdata
    rw [derive_example_payload]
    simp only [Json.get, hlk, pyOr]
    cases hm : (Json.obj m).truthy with
    | true =>
      simp only [if_true]
      simp [hdata]
    | false =>
      have : m = [] := by
        simp [Json.truthy] at hm
        exact hm
      subst this
      simp [lookupKey]
  · intro v hlk hv
    rw [derive_example_payload]
    simp only [Json.get, hlk, pyOr]
    cases htr : v.truthy with
    | true =>
      cases v with
      | obj m => exact absurd rfl (hv m)
      | null => rfl
      | bool b => rfl
      | num n => rfl
      | str s => rfl
      | arr xs => rfl
    | false =>
      simp [lookupKey]
  · intro hlk
    rw [derive_example_payload]
    simp only [Json.get, hlk, pyOr]
    simp [lookupKey]

/-- Witness for C7: verbatim case, wrap case, non-object case and absent
case at concrete casts. -/
theorem c7_example_payload_derivation_witness :
    derive_example_payload
        (.obj [("exampleData", .obj [("data", .obj [("a", .num 1)])])]) "T"
      = .obj [("data", .obj [("a", .num 1)])]
    ∧ derive_example_payload (.obj [("exampleData", .obj [("x", .num 2)])]) "T"
      = .obj [("title", pyOr (lookupKey [("exampleData", .obj [("x", .num 2)])] "title")
                (.str "T")),
              ("fontSize", .num 10), ("textColor", .str "#333333"),
              ("data", .obj [("x", .num 2)])]
    ∧ derive_example_payload (.obj [("exampleData", .str "odd")]) "T"
      = .obj [("title", pyOr (lookupKey [("exampleData", .str "odd")] "title") (.str "T")),
              ("fontSize", .num 10), ("textColor", .str "#333333"), ("data", .obj [])]
    ∧ derive_example_payload (.obj []) "T"
      = .obj [("title", pyOr (lookupKey ([] : List (String × Json)) "title") (.str "T")),
              ("fontSize", .num 10), ("textColor", .str "#333333"), ("data", .obj [])] :=
  ⟨(c7_example_payload_derivation _ "T").1 [("data", .obj [("a", .num 1)])] rfl (by decide),
   (c7_example_payload_derivation _ "T").2.1 [("x", .num 2)] rfl rfl,
   (c7_example_payload_derivation _ "T").2.2.1 (.str "odd") rfl
     (fun _m h => Json.noConfusion h),
   (c7_example_payload_derivation _ "T").2.2.2 rfl⟩

/-- C8: the creator's `detectedFieldCount` equals the number of entries
in `fieldInfo.fields` when that member is a list, and is absent in every
other case: `fields` present but not a list, `fields` missing,
`fieldInfo` not an object, or `fieldInfo` missing; no other shape is
counted. -/
theorem c8_detected_field_count (kvs : List (String × Json)) :
    (∀ m xs, lookupKey kvs "fieldInfo" = some (.obj m) →
      lookupKey m "fields" = some (.arr xs) →
      detected_field_count (.obj kvs) = some xs.length)
    ∧ (∀ m v, lookupKey kvs "fieldInfo" = some (.obj m) → lookupKey m "fields" = some v →
      (∀ xs, v ≠ .arr xs) → detected_field_count (.obj kvs) = none)
    ∧ (∀ m, lookupKey kvs "fieldInfo" = some (.obj m) → lookupKey m "fields" = none →
      detected_field_count (.obj kvs) = none)
    ∧ (∀ v, lookupKey kvs "fieldInfo" = some v → (∀ m, v ≠ .obj m) →
      detected_field_count (.obj kvs) = none)
    ∧ (lookupKey kvs "fieldInfo" = none → detected_field_count (.obj kvs) = none) := by
  refine ⟨?_, ?_, ?_, ?_, ?_⟩
  · intro m xs hlk hfl
    have hne : m ≠ [] := by
      intro hm
      rw [hm] at hfl
      simp [lookupKey] at hfl
    have htr : (Json.obj m).truthy = true := by
      simp [Json.truthy]
      cases m
      · exact absurd rfl hne
      · simp
    rw [detected_field_count]
    simp only [Json.get, hlk, pyOr, htr, if_true]
    simp [hfl]
  · intro m v hlk hfl hv
    have hne : m ≠ [] := by
      intro hm
      rw [hm] at hfl
      simp [lookupKey] at hfl
    have htr : (Json.obj m).truthy = true := by
      simp [Json.truthy]
      cases m
      · exact absurd rfl hne
      · simp
    rw [detected_field_count]
    simp only [Json.get, hlk, pyOr, htr, if_true]
    simp only [hfl]
    cases v with
    | arr xs => exact absurd rfl (hv xs)
    | null => rfl
    | bool b => rfl
    | num n => rfl
    | str s => rfl
    | obj m' => rfl
  · intro m hlk hfl
    rw [detected_field_count]
    simp only [Json.get, hlk, pyOr]
    cases htr : (Json.obj m).truthy with
    | true => simp [hfl]
    | false =>
      have : m = [] := by
        simp [Json.truthy] at htr
        exact htr
      subst this
      simp [lookupKey]
  · intro v hlk hv
    rw [detected_field_count]
    simp only [Json.get, hlk, pyOr]
    cases htr : v.truthy with
    | true =>
      cases v with
      | obj m => exact absurd rfl (hv m)
      | null => rfl
      | bool b => rfl
      | num n => rfl
      | str s => rfl
      | arr xs => rfl
    | false =>
      simp [lookupKey]
  · intro hlk
    rw [detected_field_count]
    simp only [Json.get, hlk, pyOr]
    simp [lookupKey]

/-- Witness for C8: a two-field list, a non-list `fields`, a missing
`fields`, a non-object `fieldInfo` and a missing `fieldInfo`. -/
theorem c8_detected_field_count_witness :
    detected_field_count
        (.obj [("fieldInfo", .obj [("fields", .arr [.obj [], .obj []])])])
      = some 2
    ∧ detected_field_count (.obj [("fieldInfo", .obj [("fields", .num 3)])]) = none
    ∧ detected_field_count (.obj [("fieldInfo", .obj [("other", .num 1)])]) = none
    ∧ detected_field_count (.obj [("fieldInfo", .arr [.num 1])]) = none
    ∧ detected_field_count (.obj [("x", .num 1)]) = none :=
  ⟨(c8_detected_field_count _).1 [("fields", .arr [.obj [], .obj []])] [.obj [], .obj []]
      rfl rfl,
   (c8_detected_field_count _).2.1 [("fields", .num 3)] (.num 3) rfl rfl
     (fun _xs h => Json.noConfusion h),
   (c8_detected_field_count _).2.2.1 [("other", .num 1)] rfl rfl,
   (c8_detected_field_count _).2.2.2.1 (.arr [.num 1]) rfl (fun _m h => Json.noConfusion h),
   (c8_detected_field_count _).2.2.2.2 rfl⟩
